import Mathlib

/-!
Shallow embedding of `src/xchainer/check_backward.cc` (the gradient-verification
harness of the xchainer repository).

The file under verification orchestrates external collaborators (the array
library, the backward engine, the numerical gradient estimator, the leak
tracker).  Those collaborators are not part of the source file; here they are
either abstract parameters (the forward function, the backward engine, the
numerical estimator) or small definitions modelled from the specification
(`allClose`, `getArrayGraphId`, the leak tracker report).  Every function of
the source file itself is embedded structurally: effects are explicit state
passing over a gradient store, exceptions are `Except`, and an event trace
records every invocation of a collaborator so that ordering properties
("the forward function is never run") are statable.
-/

deriving instance DecidableEq for Except

namespace XChainer

/-- A graph identifier (`GraphId` in the source); an opaque token, here `Nat`. -/
abbrev GraphId := Nat

/-- An array node attached to an array body under one graph identifier
(`internal::ArrayNode`).  `hasNextOpNode` is whether `next_op_node() != nullptr`,
i.e. whether the node is an internal (non-leaf) node. -/
structure ArrayNode where
  graphId : GraphId
  hasNextOpNode : Bool
deriving DecidableEq, Repr

/-- A tensor handle (`Array` in the source).  `bodyId` is the identity of the
`internal::ArrayBody` the handle points at (pointer identity in the source);
`storageId` is the identity of the underlying data storage shared by views.
`nodes` is the body's list of graph attachments. -/
structure Arr where
  bodyId : Nat
  storageId : Nat
  shape : List Nat
  dtype : Nat
  value : List ℚ
  nodes : List ArrayNode
deriving DecidableEq, Repr

namespace Arr

/-- `internal::ArrayBody::HasArrayNode(graph_id)`. -/
def hasArrayNode (a : Arr) (g : GraphId) : Bool :=
  a.nodes.any (fun n => n.graphId = g)

/-- Whether the node for `g` has a producing operation
(`GetArrayNode(graph_id)->next_op_node() != nullptr`); `false` when there is
no node for `g`. -/
def nodeHasNextOp (a : Arr) (g : GraphId) : Bool :=
  match a.nodes.find? (fun n => n.graphId = g) with
  | some n => n.hasNextOpNode
  | none => false

/-- Modelled from the spec: `Array::IsGradRequired(graph_id)` (array library,
not in src).  The spec's data model attaches, per graph identifier, an optional
graph node recording whether a gradient is required; requiring a gradient under
`g` is carrying a node for `g`. -/
def isGradRequired (a : Arr) (g : GraphId) : Bool :=
  a.hasArrayNode g

/-- Modelled from the spec: `Array::RequireGrad(graph_id)` (array library, not
in src).  Re-enables gradient requirement under `g`: attaches a fresh leaf node
for `g` when none is present, otherwise leaves the array unchanged. -/
def requireGrad (a : Arr) (g : GraphId) : Arr :=
  if a.hasArrayNode g then a
  else { a with nodes := a.nodes ++ [{ graphId := g, hasNextOpNode := false }] }

end Arr

/-- The gradient slots: per (array body, graph identifier) an optional gradient
array.  In the source these slots live on the `ArrayBody`; here they are a
single association list threaded through the embedding. -/
abbrev GradStore := List ((Nat × GraphId) × Arr)

/-- `Array::SetGrad(grad, graph_id)`: overwrite the slot of the handle's body. -/
def setGrad (s : GradStore) (bodyId : Nat) (g : GraphId) (v : Arr) : GradStore :=
  ((bodyId, g), v) :: s.filter (fun e => e.1 ≠ (bodyId, g))

/-- `Array::ClearGrad(graph_id)`: remove the slot of the handle's body. -/
def clearGrad (s : GradStore) (bodyId : Nat) (g : GraphId) : GradStore :=
  s.filter (fun e => e.1 ≠ (bodyId, g))

/-- `Array::GetGrad(graph_id)`: read the slot of the handle's body. -/
def getGrad (s : GradStore) (bodyId : Nat) (g : GraphId) : Option Arr :=
  (s.find? (fun e => e.1 = (bodyId, g))).map (fun e => e.2)

/-- Events recording each collaborator invocation, in execution order. -/
inductive Event where
  /-- the forward function was invoked -/
  | forwardCalled
  /-- the backward engine was invoked (`Backward(...)`) -/
  | backwardCalled (g : GraphId) (doubleBackprop : Bool)
  /-- the numerical gradient estimator was invoked -/
  | numericalCalled
  /-- a leak detection scope was opened -/
  | scopeOpened
  /-- a leak detection scope was closed -/
  | scopeClosed
deriving DecidableEq, Repr

/-- The two exception classes thrown by the source file (`GradientCheckError`
and `XchainerError`), plus `fatal` for failed internal `assert`s and
out-of-contract accesses (e.g. `front()` of an empty vector). -/
inductive Err where
  | gradientCheckError (msg : String)
  | xchainerError (msg : String)
  | fatal (msg : String)
deriving DecidableEq, Repr

/-- The class of an error: `GradientCheckError`, `XchainerError`, or a fatal
assertion — the discriminator a caller can observe from the raised error alone. -/
def Err.errClass : Err → Nat
  | .gradientCheckError _ => 0
  | .xchainerError _ => 1
  | .fatal _ => 2

/-- The forward function collaborator
(`std::function<std::vector<Array>(const std::vector<Array>&)>`).  It may
mutate gradient slots (it "may call backward inside of itself"), may append
trace events, and may throw. -/
structure FwdFunc where
  run : List Arr → GradStore → List Event → (Except Err (List Arr)) × GradStore × List Event

/-- The backward engine collaborator
(`Backward(outputs, graph_id, double_backprop)`, not in src): given the outputs
requiring gradient, the graph identifier and the double-backprop mode, it
mutates gradient slots. -/
structure BackwardEngine where
  run : List Arr → GraphId → Bool → GradStore → GradStore

/-- The numerical gradient estimator collaborator
(`CalculateNumericalGradient(func, inputs, grad_outputs, eps)`, not in src).
Per the spec it runs with graph tracking disabled and does not mutate gradient
slots; it may propagate an exception of the function under test. -/
structure NumericalOracle where
  run : List Arr → List Arr → List Arr → Except Err (List Arr)

/-- Modelled from the spec: the closeness predicate
`AllClose(a, b, atol, rtol)` (xchainer/numeric.h, not in src) — elementwise
`|a − b| ≤ atol + rtol·|b|` over arrays of equal shape and dtype. -/
def allClose (a b : Arr) (atol rtol : ℚ) : Bool :=
  decide (a.shape = b.shape) && decide (a.dtype = b.dtype) &&
    (a.value.zip b.value).all (fun p => decide (|p.1 - p.2| ≤ atol + rtol * |p.2|))

/-- Modelled from the spec: `internal::GetArrayGraphId(array, graph_id)` (not
in src) — the effective graph identifier is the supplied one when present,
otherwise derived from the array (its first graph attachment, or the default
graph identifier `0`). -/
def getArrayGraphId (a : Arr) (g : Option GraphId) : GraphId :=
  match g with
  | some gid => gid
  | none =>
    match a.nodes with
    | [] => 0
    | n :: _ => n.graphId

/-- One step of `DisconnectInputArrays`: `input.AsGradStopped(CopyKind::kView)`
— a new body (`newBodyId`) viewing the same storage, with no graph attachments
— followed by `RequireGrad(arr_node->graph_id())` for every node of the
original. -/
def disconnectOne (newBodyId : Nat) (input : Arr) : Arr :=
  (input.nodes.map ArrayNode.graphId).foldl Arr.requireGrad
    { bodyId := newBodyId
      storageId := input.storageId
      shape := input.shape
      dtype := input.dtype
      value := input.value
      nodes := [] }

/-- `DisconnectInputArrays(inputs)` (check_backward.cc, lines 26–37): one new
view handle per input, gradient requirement re-enabled under the original's
graphs, no producing-operation history.  `freshBase` supplies the identities of
the newly allocated bodies. -/
def DisconnectInputArrays (freshBase : Nat) (inputs : List Arr) : List Arr :=
  inputs.mapIdx (fun k input => disconnectOne (freshBase + k) input)

/-- Error message of the leaf-node precondition (line 48). -/
def leafViolationMsg : String :=
  "BackwardGradients: All inputs must be leaf nodes of computational graph"

/-- Error message of the identical-input-output precondition (line 57). -/
def identicalMsg (i j : Nat) : String :=
  "BackwardGradients: Input " ++ toString i ++ " and output " ++ toString j ++
    " of the forward function are identical."

/-- Error message of the grad-outputs size precondition (lines 65–69). -/
def gradOutputsSizeMsg (nout ngrad : Nat) : String :=
  "BackwardGradients: Size of function outputs: " ++ toString nout ++
    " and size of grad outputs: " ++ toString ngrad ++ " must be same"

/-- The first pair `(i, j)` in the source's iteration order (outer loop over
inputs, inner loop over outputs) with
`GetArrayBody(inputs[i]) == GetArrayBody(outputs[j])` and
`inputs[i].IsGradRequired(graph_id)` (lines 54–60). -/
def findAliasPair (inputs outputs : List Arr) (g : GraphId) : Option (Nat × Nat) :=
  aux inputs 0
where
  aux : List Arr → Nat → Option (Nat × Nat)
    | [], _ => none
    | inp :: rest, i =>
      match outputs.findIdx? (fun out => out.bodyId = inp.bodyId ∧ inp.isGradRequired g) with
      | some j => some (i, j)
      | none => aux rest (i + 1)

/-- Seed the output gradients (lines 72–76): for each output that requires
gradient under `g`, assign the corresponding seed gradient. -/
def seedOutputGrads (outputs gradOutputs : List Arr) (g : GraphId) (s : GradStore) : GradStore :=
  (outputs.zip gradOutputs).foldl
    (fun acc p => if p.1.isGradRequired g then setGrad acc p.1.bodyId g p.2 else acc) s

/-- Clear input gradients (lines 80–84). -/
def clearInputGrads (inputs : List Arr) (g : GraphId) (s : GradStore) : GradStore :=
  inputs.foldl (fun acc input => if input.isGradRequired g then clearGrad acc input.bodyId g else acc) s

/-- `BackwardGradients(func, inputs, grad_outputs, graph_id, double_backprop)`
(check_backward.cc, lines 39–103).  Returns one optional gradient per input,
threading the gradient store and the event trace; exceptions are `Except.error`. -/
def BackwardGradients (engine : BackwardEngine) (func : FwdFunc) (inputs : List Arr)
    (gradOutputs : Option (List Arr)) (graphId : GraphId) (doubleBackprop : Bool)
    (s : GradStore) (tr : List Event) :
    (Except Err (List (Option Arr))) × GradStore × List Event :=
  if inputs.any (fun input => input.hasArrayNode graphId && input.nodeHasNextOp graphId) then
    (Except.error (Err.gradientCheckError leafViolationMsg), s, tr)
  else
    match func.run inputs s (tr ++ [Event.forwardCalled]) with
    | (Except.error e, s1, t1) => (Except.error e, s1, t1)
    | (Except.ok outputs, s1, t1) =>
      match findAliasPair inputs outputs graphId with
      | some (i, j) => (Except.error (Err.gradientCheckError (identicalMsg i j)), s1, t1)
      | none =>
        match seedCheck outputs s1 t1 with
        | (Except.error e, s2, t2) => (Except.error e, s2, t2)
        | (Except.ok _, s2, t2) =>
          let s3 := clearInputGrads inputs graphId s2
          let outputsRequiringGrad := outputs.filter (fun a => a.isGradRequired graphId)
          let s4 := engine.run outputsRequiringGrad graphId doubleBackprop s3
          let t3 := t2 ++ [Event.backwardCalled graphId doubleBackprop]
          let backwardGrads := inputs.map (fun input =>
            if !input.isGradRequired graphId then none
            else getGrad s4 input.bodyId graphId)
          (Except.ok backwardGrads, s4, t3)
where
  /-- Lines 62–77: size check and seeding of the supplied grad outputs. -/
  seedCheck (outputs : List Arr) (s : GradStore) (t : List Event) :
      (Except Err Unit) × GradStore × List Event :=
    match gradOutputs with
    | none => (Except.ok (), s, t)
    | some gs =>
      if outputs.length ≠ gs.length then
        (Except.error (Err.gradientCheckError (gradOutputsSizeMsg outputs.length gs.length)), s, t)
      else
        (Except.ok (), seedOutputGrads outputs gs graphId s, t)

/-- Failure message of the disabled run of `CheckDoubleBackpropOption`
(lines 129–130). -/
def dbpDisabledMsg (i n : Nat) (g : GraphId) : String :=
  "Gradient " ++ toString i ++ " / " ++ toString n ++ " is connected to the graph " ++
    toString g ++ " even when double-backprop is disabled."

/-- Failure message of the enabled run of `CheckDoubleBackpropOption`
(lines 145–146). -/
def dbpEnabledMsg (i n : Nat) (g : GraphId) : String :=
  "Gradient " ++ toString i ++ " / " ++ toString n ++ " is not connected to the graph " ++
    toString g ++ " even when double-backprop is enabled."

/-- Failures collected in the disabled run (lines 126–133): every produced
gradient that requires gradient under `g`. -/
def dbpDisabledFailures (grads : List (Option Arr)) (g : GraphId) : List String :=
  grads.enum.filterMap (fun p =>
    match p.2 with
    | some a => if a.isGradRequired g then some (dbpDisabledMsg p.1 grads.length g) else none
    | none => none)

/-- Failures collected in the enabled run (lines 142–149): every produced
gradient that does not require gradient under `g`. -/
def dbpEnabledFailures (grads : List (Option Arr)) (g : GraphId) : List String :=
  grads.enum.filterMap (fun p =>
    match p.2 with
    | some a => if !a.isGradRequired g then some (dbpEnabledMsg p.1 grads.length g) else none
    | none => none)

/-- The nonlinear wrapper of `CheckDoubleBackpropOption` (lines 112–118): each
output of `func` is squared elementwise (`output * output`).  `square` is the
array library's elementwise self-product (a collaborator, not in src). -/
def nonlinearFunc (square : Arr → Arr) (func : FwdFunc) : FwdFunc :=
  ⟨fun xs st t =>
    match func.run xs st t with
    | (Except.error e, st1, t1) => (Except.error e, st1, t1)
    | (Except.ok outs, st1, t1) => (Except.ok (outs.map square), st1, t1)⟩

/-- `CheckDoubleBackpropOption(func, inputs, graph_id)` (check_backward.cc,
lines 105–157).  `fresh1`, `fresh2` supply body identities for the two isolated
copies of the inputs.  The source accumulates failure messages in a string
stream and throws iff the final string is non-empty; since every appended
message is non-empty, this is embedded as throwing iff the list of collected
failure messages is non-empty, with the thrown message their concatenation. -/
def CheckDoubleBackpropOption (engine : BackwardEngine) (square : Arr → Arr)
    (func : FwdFunc) (inputs : List Arr) (graphId : GraphId) (fresh1 fresh2 : Nat)
    (s : GradStore) (tr : List Event) : (Except Err Unit) × GradStore × List Event :=
  let nlFunc := nonlinearFunc square func
  let inputs1 := DisconnectInputArrays fresh1 inputs
  match BackwardGradients engine nlFunc inputs1 none graphId false s tr with
  | (Except.error e, s1, t1) => (Except.error e, s1, t1)
  | (Except.ok grads1, s1, t1) =>
    let failures1 := dbpDisabledFailures grads1 graphId
    let inputs2 := DisconnectInputArrays fresh2 inputs
    match BackwardGradients engine nlFunc inputs2 none graphId true s1 t1 with
    | (Except.error e, s2, t2) => (Except.error e, s2, t2)
    | (Except.ok grads2, s2, t2) =>
      let failures := failures1 ++ dbpEnabledFailures grads2 graphId
      if failures.isEmpty then (Except.ok (), s2, t2)
      else (Except.error (Err.gradientCheckError (String.join failures)), s2, t2)

/-- Message of the failed `assert(!inputs.empty())` (lines 167 and 273). -/
def assertInputsNonEmptyMsg : String := "assert failed: inputs must not be empty"

/-- Message of the backward-gradient count check (line 174). -/
def backwardGradsCountMsg : String :=
  "Number of input gradients does not match the input arrays."

/-- Message of the shape validation failure (lines 182–190). -/
def shapeMismatchMsg (i n : Nat) : String :=
  "Shape of input gradient " ++ toString i ++ " of " ++ toString n ++
    " does not match the corresponding input shape."

/-- Message of the dtype validation failure (lines 193–201). -/
def dtypeMismatchMsg (i n : Nat) : String :=
  "Dtype of input gradient " ++ toString i ++ " of " ++ toString n ++
    " does not match the corresponding input dtype."

/-- Message of the failed `assert` on the numerical estimator's gradient count
(line 209). -/
def numericalSizeAssertMsg : String :=
  "assert failed: numerical gradient count must match the input count"

/-- Message of the failed `assert` on the numerical estimator's shapes and
dtypes (lines 211–212). -/
def numericalShapeAssertMsg : String :=
  "assert failed: numerical gradient shape and dtype must match the input"

/-- The aggregated first-order failure report (lines 226–246), carrying every
failing index, the graph identifier and the tolerances in one message. -/
def numericalErrorMsg (failed : List Nat) (nin : Nat) (g : GraphId) (atol rtol : ℚ) : String :=
  "Numerical error in backward on inputs (out of " ++ toString nin ++ "): " ++
    String.intercalate ", " (failed.map toString) ++ " Graph: " ++ toString g ++
    " Atol: " ++ toString atol ++ " Rtol: " ++ toString rtol

/-- The validation loop of `CheckBackwardComputation` (lines 176–203): skip
inputs without a produced gradient; at the first index whose gradient has a
mismatching shape (checked first) or dtype, return the error. -/
def findShapeDtypeError (pairs : List (Arr × Option Arr)) (nin : Nat) (i : Nat) : Option Err :=
  match pairs with
  | [] => none
  | (_, none) :: rest => findShapeDtypeError rest nin (i + 1)
  | (inp, some bg) :: rest =>
    if bg.shape ≠ inp.shape then some (Err.gradientCheckError (shapeMismatchMsg i nin))
    else if bg.dtype ≠ inp.dtype then some (Err.gradientCheckError (dtypeMismatchMsg i nin))
    else findShapeDtypeError rest nin (i + 1)

/-- The comparison loop of `CheckBackwardComputation` (lines 216–224): over the
pairs of produced gradients and numerical gradients, skip absent gradients and
collect every index failing `AllClose`. -/
def failedIndicesAux (pairs : List (Option Arr × Arr)) (atol rtol : ℚ) (i : Nat) : List Nat :=
  match pairs with
  | [] => []
  | (none, _) :: rest => failedIndicesAux rest atol rtol (i + 1)
  | (some bg, ng) :: rest =>
    if allClose bg ng atol rtol then failedIndicesAux rest atol rtol (i + 1)
    else i :: failedIndicesAux rest atol rtol (i + 1)

/-- The failing input indices of the first-order comparison. -/
def failedInputIndices (bgrads : List (Option Arr)) (ngrads : List Arr) (atol rtol : ℚ) :
    List Nat :=
  failedIndicesAux (bgrads.zip ngrads) atol rtol 0

/-- `CheckBackwardComputation(func, inputs, grad_outputs, eps, atol, rtol,
graph_id)` (check_backward.cc, lines 159–249). -/
def CheckBackwardComputation (engine : BackwardEngine) (oracle : NumericalOracle)
    (func : FwdFunc) (inputs gradOutputs eps : List Arr) (atol rtol : ℚ)
    (graphId : Option GraphId) (fresh : Nat) (s : GradStore) (tr : List Event) :
    (Except Err Unit) × GradStore × List Event :=
  match inputs with
  | [] => (Except.error (Err.fatal assertInputsNonEmptyMsg), s, tr)
  | inp0 :: _ =>
    let actualGraphId := getArrayGraphId inp0 graphId
    let inputsDisconnected := DisconnectInputArrays fresh inputs
    match BackwardGradients engine func inputsDisconnected (some gradOutputs) actualGraphId false s tr with
    | (Except.error e, s1, t1) => (Except.error e, s1, t1)
    | (Except.ok backwardGrads, s1, t1) =>
      if backwardGrads.length ≠ inputs.length then
        (Except.error (Err.gradientCheckError backwardGradsCountMsg), s1, t1)
      else
        match findShapeDtypeError (inputs.zip backwardGrads) inputs.length 0 with
        | some e => (Except.error e, s1, t1)
        | none =>
          let t2 := t1 ++ [Event.numericalCalled]
          match oracle.run inputs gradOutputs eps with
          | Except.error e => (Except.error e, s1, t2)
          | Except.ok numericalGrads =>
            if numericalGrads.length ≠ inputs.length then
              (Except.error (Err.fatal numericalSizeAssertMsg), s1, t2)
            else if (inputs.zip numericalGrads).any
                (fun p => decide (p.2.shape ≠ p.1.shape) || decide (p.2.dtype ≠ p.1.dtype)) then
              (Except.error (Err.fatal numericalShapeAssertMsg), s1, t2)
            else
              let failed := failedInputIndices backwardGrads numericalGrads atol rtol
              if failed.isEmpty then (Except.ok (), s1, t2)
              else
                (Except.error (Err.gradientCheckError
                  (numericalErrorMsg failed inputs.length actualGraphId atol rtol)), s1, t2)

/-- Modelled from the spec: `internal::ArrayBodyLeakTracker`
(array_body_leak_detection.h, not in src).  `survivors` is the list of
graph-node/array-body allocations recorded inside the tracker's scope that have
not been released by the time the tracker is queried;
`IsAllArrayBodiesFreed(os)` returns whether it is empty and writes a report
naming the surviving allocations. -/
structure LeakTracker where
  survivors : List Nat
deriving DecidableEq, Repr

/-- The report written by `IsAllArrayBodiesFreed`, naming the survivors. -/
def leakReportMsg (survivors : List Nat) : String :=
  "Leaked array bodies: " ++ String.intercalate ", " (survivors.map toString)

/-- `CheckAllArrayBodiesFreed(tracker)` (check_backward.cc, lines 256–261):
throw a `GradientCheckError` naming the surviving allocations iff the tracker
reports that not all array bodies were freed. -/
def CheckAllArrayBodiesFreed (tracker : LeakTracker) : Except Err Unit :=
  if tracker.survivors.isEmpty then Except.ok ()
  else Except.error (Err.gradientCheckError (leakReportMsg tracker.survivors))

/-- `CheckBackward(func, inputs, grad_outputs, eps, atol, rtol, graph_id)`
(check_backward.cc, lines 265–293): assert non-empty inputs, derive the
effective graph identifier from the first input, then run the double-backprop
toggle check inside a first leak detection scope followed by its leak
assertion, and only then the first-order computation check inside a second
scope followed by its own leak assertion.  `tracker1` and `tracker2` are the
observed outcomes of the two trackers at their scope exits. -/
def CheckBackward (engine : BackwardEngine) (oracle : NumericalOracle) (square : Arr → Arr)
    (func : FwdFunc) (inputs gradOutputs eps : List Arr) (atol rtol : ℚ)
    (graphId : Option GraphId) (fresh1 fresh2 fresh3 : Nat)
    (tracker1 tracker2 : LeakTracker) (s : GradStore) (tr : List Event) :
    (Except Err Unit) × GradStore × List Event :=
  match inputs with
  | [] => (Except.error (Err.fatal assertInputsNonEmptyMsg), s, tr)
  | inp0 :: _ =>
    let actualGraphId := getArrayGraphId inp0 graphId
    let r1 := CheckDoubleBackpropOption engine square func inputs actualGraphId fresh1 fresh2
      s (tr ++ [Event.scopeOpened])
    let t1 := r1.2.2 ++ [Event.scopeClosed]
    match r1.1 with
    | Except.error e => (Except.error e, r1.2.1, t1)
    | Except.ok _ =>
      match CheckAllArrayBodiesFreed tracker1 with
      | Except.error e => (Except.error e, r1.2.1, t1)
      | Except.ok _ =>
        let r2 := CheckBackwardComputation engine oracle func inputs gradOutputs eps atol rtol
          graphId fresh3 r1.2.1 (t1 ++ [Event.scopeOpened])
        let t2 := r2.2.2 ++ [Event.scopeClosed]
        match r2.1 with
        | Except.error e => (Except.error e, r2.2.1, t2)
        | Except.ok _ =>
          match CheckAllArrayBodiesFreed tracker2 with
          | Except.error e => (Except.error e, r2.2.1, t2)
          | Except.ok _ => (Except.ok (), r2.2.1, t2)

/-- Message of the access `inputs.front()` on an empty vector (line 306). -/
def frontEmptyMsg : String := "undefined behavior: front of an empty input sequence"

/-- Message of the grad-grad-input count precondition (line 311). -/
def gradGradCountMsg : String :=
  "Number of input arrays and grad_grad_input arrays do not match."

/-- Message of the input differentiability precondition (lines 317–321). -/
def inputNotDifferentiableMsg (i n : Nat) (g : GraphId) : String :=
  "Input array " ++ toString i ++ " / " ++ toString n ++
    " is not differentiable w.r.t. the graph " ++ toString g ++ "."

/-- Message of the output-gradient differentiability precondition
(lines 324–329). -/
def gradOutputNotDifferentiableMsg (i n : Nat) (g : GraphId) : String :=
  "Output gradient array " ++ toString i ++ " / " ++ toString n ++
    " is not differentiable w.r.t. the graph " ++ toString g ++ "."

/-- Message of the first-order gradient count check (lines 348–354). -/
def firstOrderGradsCountMsg (m n : Nat) : String :=
  "Number of first-order input gradients arrays " ++ toString m ++
    " do not match the number of input arrays " ++ toString n ++ "."

/-- Message of the first-order gradient existence check (lines 356–360). -/
def firstOrderGradMissingMsg (i n : Nat) : String :=
  "First-order input gradient " ++ toString i ++ " / " ++ toString n ++ " does not exist."

/-- Message of the first-order gradient differentiability check
(lines 362–367). -/
def firstOrderGradNotDifferentiableMsg (i n : Nat) (g : GraphId) : String :=
  "First-order Input gradient " ++ toString i ++ " / " ++ toString n ++
    " is not differentiable w.r.t. the graph " ++ toString g ++ "."

/-- Message of the failed `assert` on the second-order backward gradient count
(line 396). -/
def backwardSizeAssertMsg : String :=
  "assert failed: backward gradient count must match the combined input count"

/-- The aggregated missing-second-order-gradient report (lines 399–413),
naming every combined-vector index whose gradient is missing. -/
def secondOrderMissingMsg (missing : List Nat) (nin nout : Nat) (g : GraphId) : String :=
  "Second order gradient w.r.t. the input gradients " ++
    String.intercalate ", " (missing.map toString) ++ " (Total inputs: " ++ toString nin ++
    ", outputs: " ++ toString nout ++ ") is missing on the graph " ++ toString g ++
    ". Maybe you need additional nonlinearity in the target function."

/-- The aggregated second-order numerical failure report (lines 424–444). -/
def doubleNumericalErrorMsg (failed : List Nat) (nin : Nat) (g : GraphId) (atol rtol : ℚ) :
    String :=
  "Numerical error in double backward on inputs (out of " ++ toString nin ++ "): " ++
    String.intercalate ", " (failed.map toString) ++ " Graph: " ++ toString g ++
    " Atol: " ++ toString atol ++ " Rtol: " ++ toString rtol

/-- Index of the first array not requiring gradient under `g`, if any
(the precondition scans, lines 317–329). -/
def findNotRequiringGrad (arrs : List Arr) (g : GraphId) : Option Nat :=
  arrs.findIdx? (fun a => !a.isGradRequired g)

/-- The combined-vector indices whose second-order gradient is missing
(lines 399–409): every index is inspected; none is skipped. -/
def missingIndices (grads : List (Option Arr)) : List Nat :=
  grads.enum.filterMap (fun p => if p.2.isNone then some p.1 else none)

/-- The comparison loop of `CheckDoubleBackwardComputationImpl`
(lines 416–421): every index is compared (`*backward_grads[i]`); a missing
gradient cannot occur here because the missing check (lines 399–413) has
already thrown, and is conservatively counted as a failure. -/
def failedIndicesAllAux (pairs : List (Option Arr × Arr)) (atol rtol : ℚ) (i : Nat) :
    List Nat :=
  match pairs with
  | [] => []
  | (none, _) :: rest => i :: failedIndicesAllAux rest atol rtol (i + 1)
  | (some bg, ng) :: rest =>
    if allClose bg ng atol rtol then failedIndicesAllAux rest atol rtol (i + 1)
    else i :: failedIndicesAllAux rest atol rtol (i + 1)

/-- The failing combined-vector indices of the second-order comparison. -/
def failedCombinedIndices (bgrads : List (Option Arr)) (ngrads : List Arr) (atol rtol : ℚ) :
    List Nat :=
  failedIndicesAllAux (bgrads.zip ngrads) atol rtol 0

/-- The closure `first_order_grad_func` (check_backward.cc, lines 333–379):
split the combined vector at `nin`, re-enable gradient requirement on the input
portion (inside a `ForceBackpropModeScope`, a no-op in this model), run
`BackwardGradients` (double backprop enabled by default), then require the
first-order gradients to be `nin` in number, all present, and all requiring
gradient, and return them unwrapped. -/
def firstOrderGradFunc (engine : BackwardEngine) (func : FwdFunc) (nin : Nat)
    (actualGraphId : GraphId) : FwdFunc :=
  ⟨fun inputsAndGradOutputs st t =>
    let inputs := (inputsAndGradOutputs.take nin).map (fun a => a.requireGrad actualGraphId)
    let gradOutputs := inputsAndGradOutputs.drop nin
    match BackwardGradients engine func inputs (some gradOutputs) actualGraphId true st t with
    | (Except.error e, st1, t1) => (Except.error e, st1, t1)
    | (Except.ok optGrads, st1, t1) =>
      if optGrads.length ≠ nin then
        (Except.error (Err.gradientCheckError (firstOrderGradsCountMsg optGrads.length nin)),
          st1, t1)
      else
        match optGrads.findIdx? Option.isNone with
        | some i =>
          (Except.error (Err.gradientCheckError (firstOrderGradMissingMsg i nin)), st1, t1)
        | none =>
          match optGrads.findIdx? (fun o =>
              match o with
              | some a => !a.isGradRequired actualGraphId
              | none => false) with
          | some i =>
            (Except.error (Err.gradientCheckError
              (firstOrderGradNotDifferentiableMsg i nin actualGraphId)), st1, t1)
          | none => (Except.ok optGrads.reduceOption, st1, t1)⟩

/-- `CheckDoubleBackwardComputationImpl(func, inputs, grad_outputs,
grad_grad_inputs, eps, atol, rtol, graph_id)` (check_backward.cc,
lines 297–447). -/
def CheckDoubleBackwardComputationImpl (engine : BackwardEngine) (oracle : NumericalOracle)
    (func : FwdFunc) (inputs gradOutputs gradGradInputs eps : List Arr) (atol rtol : ℚ)
    (graphId : Option GraphId) (s : GradStore) (tr : List Event) :
    (Except Err Unit) × GradStore × List Event :=
  match inputs with
  | [] => (Except.error (Err.fatal frontEmptyMsg), s, tr)
  | inp0 :: _ =>
    let actualGraphId := getArrayGraphId inp0 graphId
    let nin := inputs.length
    let nout := gradOutputs.length
    if gradGradInputs.length ≠ nin then
      (Except.error (Err.xchainerError gradGradCountMsg), s, tr)
    else
      match findNotRequiringGrad inputs actualGraphId with
      | some i =>
        (Except.error (Err.xchainerError (inputNotDifferentiableMsg i nin actualGraphId)), s, tr)
      | none =>
        match findNotRequiringGrad gradOutputs actualGraphId with
        | some i =>
          (Except.error (Err.xchainerError (gradOutputNotDifferentiableMsg i nout actualGraphId)),
            s, tr)
        | none =>
          let fogFunc := firstOrderGradFunc engine func nin actualGraphId
          let inputsAndGradOutputs := inputs ++ gradOutputs
          let t1 := tr ++ [Event.numericalCalled]
          match oracle.run inputsAndGradOutputs gradGradInputs eps with
          | Except.error e => (Except.error e, s, t1)
          | Except.ok numericalGrads =>
            if numericalGrads.length ≠ nin + nout then
              (Except.error (Err.fatal numericalSizeAssertMsg), s, t1)
            else
              match BackwardGradients engine fogFunc inputsAndGradOutputs (some gradGradInputs)
                  actualGraphId true s t1 with
              | (Except.error e, s2, t2) => (Except.error e, s2, t2)
              | (Except.ok backwardGrads, s2, t2) =>
                if backwardGrads.length ≠ nin + nout then
                  (Except.error (Err.fatal backwardSizeAssertMsg), s2, t2)
                else
                  let missing := missingIndices backwardGrads
                  if !missing.isEmpty then
                    (Except.error (Err.gradientCheckError
                      (secondOrderMissingMsg missing nin nout actualGraphId)), s2, t2)
                  else
                    let failed := failedCombinedIndices backwardGrads numericalGrads atol rtol
                    if failed.isEmpty then (Except.ok (), s2, t2)
                    else
                      (Except.error (Err.gradientCheckError
                        (doubleNumericalErrorMsg failed nin actualGraphId atol rtol)), s2, t2)

/-- `CheckDoubleBackwardComputation(func, inputs, grad_outputs,
grad_grad_inputs, eps, atol, rtol, graph_id)` (check_backward.cc,
lines 451–467): run the implementation on disconnected copies of the inputs
and of the output gradients, inside one leak detection scope, then assert all
array bodies freed. -/
def CheckDoubleBackwardComputation (engine : BackwardEngine) (oracle : NumericalOracle)
    (func : FwdFunc) (inputs gradOutputs gradGradInputs eps : List Arr) (atol rtol : ℚ)
    (graphId : Option GraphId) (fresh1 fresh2 : Nat) (tracker : LeakTracker)
    (s : GradStore) (tr : List Event) : (Except Err Unit) × GradStore × List Event :=
  let r := CheckDoubleBackwardComputationImpl engine oracle func
    (DisconnectInputArrays fresh1 inputs) (DisconnectInputArrays fresh2 gradOutputs)
    gradGradInputs eps atol rtol graphId s (tr ++ [Event.scopeOpened])
  let t1 := r.2.2 ++ [Event.scopeClosed]
  match r.1 with
  | Except.error e => (Except.error e, r.2.1, t1)
  | Except.ok _ =>
    match CheckAllArrayBodiesFreed tracker with
    | Except.error e => (Except.error e, r.2.1, t1)
    | Except.ok _ => (Except.ok (), r.2.1, t1)

/-! ### Concrete fixtures

Small concrete collaborators and arrays used to instantiate the theorems on
explicit runs. -/

/-- A leaf input requiring gradient under graph 1. -/
def leafA : Arr := ⟨10, 100, [1], 0, [1], [⟨1, false⟩]⟩

/-- A second leaf input requiring gradient under graph 1. -/
def leafB : Arr := ⟨20, 200, [1], 0, [1], [⟨1, false⟩]⟩

/-- An input carrying a non-leaf node (a producing operation) under graph 1. -/
def nonLeafA : Arr := ⟨10, 100, [1], 0, [1], [⟨1, true⟩]⟩

/-- An input with no graph attachment at all. -/
def noGradA : Arr := ⟨10, 100, [1], 0, [1], []⟩

/-- A second array with no graph attachment. -/
def noGradB : Arr := ⟨20, 200, [1], 0, [1], []⟩

/-- A forward output with no graph attachment. -/
def outArr : Arr := ⟨30, 300, [1], 0, [3], []⟩

/-- A gradient value requiring gradient under graph 1. -/
def gradV : Arr := ⟨99, 990, [1], 0, [5], [⟨1, false⟩]⟩

/-- A numerical gradient far from `gradV`. -/
def numV : Arr := ⟨97, 970, [1], 0, [0], []⟩

/-- A numerical gradient equal in value to `gradV`. -/
def numMatch : Arr := ⟨97, 970, [1], 0, [5], []⟩

/-- A second-order seed gradient. -/
def ggiArr : Arr := ⟨40, 400, [1], 0, [1], []⟩

/-- A backward engine that writes no gradient. -/
def idEngine : BackwardEngine := ⟨fun _ _ _ st => st⟩

/-- A backward engine that writes gradient `v` for body `bid` under graph 1. -/
def writeEngine (bid : Nat) (v : Arr) : BackwardEngine := ⟨fun _ _ _ st => setGrad st bid 1 v⟩

/-- A backward engine that writes gradient `v` for the two bodies `b1` and
`b2` under graph 1. -/
def writeEngine2 (b1 b2 : Nat) (v : Arr) : BackwardEngine :=
  ⟨fun _ _ _ st => setGrad (setGrad st b1 1 v) b2 1 v⟩

/-- A forward function returning fixed outputs. -/
def constFunc (outs : List Arr) : FwdFunc := ⟨fun _ st t => (Except.ok outs, st, t)⟩

/-- A forward function returning its own inputs as outputs. -/
def idFunc : FwdFunc := ⟨fun xs st t => (Except.ok xs, st, t)⟩

/-- A numerical estimator returning fixed gradients. -/
def constOracle (grads : List Arr) : NumericalOracle := ⟨fun _ _ _ => Except.ok grads⟩

/-- An elementwise self-product on the stored values. -/
def squareArr : Arr → Arr := fun a => { a with value := a.value.map (fun x => x * x) }

/-! ### General lemmas about the embedding -/

theorem requireGrad_proj {β : Type} (p : Arr → β) (hp : ∀ (a : Arr) (g : GraphId), p (a.requireGrad g) = p a) :
    ∀ (gs : List GraphId) (a : Arr), p (gs.foldl Arr.requireGrad a) = p a := by
  intro gs
  induction gs with
  | nil => intro a; rfl
  | cons g gs ih => intro a; rw [List.foldl_cons, ih, hp]

theorem requireGrad_bodyId (a : Arr) (g : GraphId) : (a.requireGrad g).bodyId = a.bodyId := by
  unfold Arr.requireGrad; split <;> rfl

theorem requireGrad_storageId (a : Arr) (g : GraphId) :
    (a.requireGrad g).storageId = a.storageId := by
  unfold Arr.requireGrad; split <;> rfl

theorem requireGrad_shape (a : Arr) (g : GraphId) : (a.requireGrad g).shape = a.shape := by
  unfold Arr.requireGrad; split <;> rfl

theorem requireGrad_dtype (a : Arr) (g : GraphId) : (a.requireGrad g).dtype = a.dtype := by
  unfold Arr.requireGrad; split <;> rfl

theorem requireGrad_value (a : Arr) (g : GraphId) : (a.requireGrad g).value = a.value := by
  unfold Arr.requireGrad; split <;> rfl

theorem requireGrad_hasArrayNode (a : Arr) (g h : GraphId) :
    (a.requireGrad g).hasArrayNode h = (a.hasArrayNode h || decide (g = h)) := by
  unfold Arr.requireGrad
  by_cases hg : a.hasArrayNode g = true
  · rw [if_pos hg]
    by_cases ghe : g = h
    · subst ghe; simp [hg]
    · simp [ghe]
  · rw [if_neg hg]
    unfold Arr.hasArrayNode at *
    simp [List.any_append]

theorem foldl_requireGrad_hasArrayNode (gs : List GraphId) (a : Arr) (h : GraphId) :
    (gs.foldl Arr.requireGrad a).hasArrayNode h =
      (a.hasArrayNode h || gs.any (fun g => decide (g = h))) := by
  induction gs generalizing a with
  | nil => simp
  | cons g gs ih =>
    rw [List.foldl_cons, ih, requireGrad_hasArrayNode]
    simp [Bool.or_assoc]

theorem requireGrad_nodes_leaf (a : Arr) (g : GraphId)
    (h : ∀ n ∈ a.nodes, n.hasNextOpNode = false) :
    ∀ n ∈ (a.requireGrad g).nodes, n.hasNextOpNode = false := by
  unfold Arr.requireGrad
  split
  · exact h
  · intro n hn
    rcases List.mem_append.mp hn with hn | hn
    · exact h n hn
    · simp at hn; rw [hn]

theorem foldl_requireGrad_nodes_leaf (gs : List GraphId) (a : Arr)
    (h : ∀ n ∈ a.nodes, n.hasNextOpNode = false) :
    ∀ n ∈ (gs.foldl Arr.requireGrad a).nodes, n.hasNextOpNode = false := by
  induction gs generalizing a with
  | nil => exact h
  | cons g gs ih => rw [List.foldl_cons]; exact ih _ (requireGrad_nodes_leaf a g h)

theorem nodes_leaf_nodeHasNextOp (a : Arr) (h : ∀ n ∈ a.nodes, n.hasNextOpNode = false)
    (g : GraphId) : a.nodeHasNextOp g = false := by
  unfold Arr.nodeHasNextOp
  cases hf : a.nodes.find? (fun n => n.graphId = g) with
  | none => rfl
  | some n => exact h n (List.mem_of_find?_eq_some hf)

theorem disconnectOne_bodyId (n : Nat) (input : Arr) : (disconnectOne n input).bodyId = n :=
  requireGrad_proj Arr.bodyId requireGrad_bodyId _ _

theorem disconnectOne_storageId (n : Nat) (input : Arr) :
    (disconnectOne n input).storageId = input.storageId :=
  requireGrad_proj Arr.storageId requireGrad_storageId _ _

theorem disconnectOne_shape (n : Nat) (input : Arr) :
    (disconnectOne n input).shape = input.shape :=
  requireGrad_proj Arr.shape requireGrad_shape _ _

theorem disconnectOne_dtype (n : Nat) (input : Arr) :
    (disconnectOne n input).dtype = input.dtype :=
  requireGrad_proj Arr.dtype requireGrad_dtype _ _

theorem disconnectOne_value (n : Nat) (input : Arr) :
    (disconnectOne n input).value = input.value :=
  requireGrad_proj Arr.value requireGrad_value _ _

theorem disconnectOne_leaf (n : Nat) (input : Arr) (g : GraphId) :
    (disconnectOne n input).nodeHasNextOp g = false := by
  apply nodes_leaf_nodeHasNextOp
  apply foldl_requireGrad_nodes_leaf
  intro nd hnd
  simp at hnd

theorem any_map_graphId (l : List ArrayNode) (g : GraphId) :
    (l.map ArrayNode.graphId).any (fun x => decide (x = g)) =
      l.any (fun n => decide (n.graphId = g)) := by
  induction l with
  | nil => rfl
  | cons n rest ih => simp only [List.map_cons, List.any_cons, ih]

theorem disconnectOne_isGradRequired (n : Nat) (input : Arr) (g : GraphId) :
    (disconnectOne n input).isGradRequired g = input.isGradRequired g := by
  unfold disconnectOne Arr.isGradRequired
  rw [foldl_requireGrad_hasArrayNode]
  unfold Arr.hasArrayNode
  simp only [List.any_nil, Bool.false_or]
  rw [any_map_graphId]

/-! ### Claim C6 -/

/-- **C6**: for every sequence of input tensor handles, `DisconnectInputArrays`
returns one new handle per input, in order; each is a view of the same storage
with the same shape, dtype and values, each is a leaf (no node has a producing
operation), and each requires gradient under exactly the set of graph
identifiers the original carries.  The operation is a pure total function
(no failure conditions, no effect on the originals or on any state). -/
theorem disconnectInputArrays_isolates (freshBase : Nat) (inputs : List Arr) :
    (DisconnectInputArrays freshBase inputs).length = inputs.length ∧
    ∀ k a, inputs[k]? = some a →
      ∃ b, (DisconnectInputArrays freshBase inputs)[k]? = some b ∧
        b = disconnectOne (freshBase + k) a ∧
        b.bodyId = freshBase + k ∧ b.storageId = a.storageId ∧
        b.shape = a.shape ∧ b.dtype = a.dtype ∧ b.value = a.value ∧
        (∀ g, b.nodeHasNextOp g = false) ∧
        (∀ g, b.isGradRequired g = a.isGradRequired g) := by
  constructor
  · simp [DisconnectInputArrays]
  · intro k a hk
    refine ⟨disconnectOne (freshBase + k) a, ?_, rfl, disconnectOne_bodyId _ _,
      disconnectOne_storageId _ _, disconnectOne_shape _ _, disconnectOne_dtype _ _,
      disconnectOne_value _ _, disconnectOne_leaf _ _, disconnectOne_isGradRequired _ _⟩
    simp [DisconnectInputArrays, hk]

/-- Witness for C6: the isolation of the concrete input `leafA`. -/
theorem disconnectInputArrays_isolates_witness :
    ([leafA][0]? = some leafA) ∧
    (∃ b, (DisconnectInputArrays 50 [leafA])[0]? = some b ∧
      b = disconnectOne (50 + 0) leafA ∧
      b.bodyId = 50 + 0 ∧ b.storageId = leafA.storageId ∧
      b.shape = leafA.shape ∧ b.dtype = leafA.dtype ∧ b.value = leafA.value ∧
      (∀ g, b.nodeHasNextOp g = false) ∧
      (∀ g, b.isGradRequired g = leafA.isGradRequired g)) :=
  ⟨rfl, (disconnectInputArrays_isolates 50 [leafA]).2 0 leafA rfl⟩

/-! ### Claim C4 -/

/-- **C4**: for every call to `BackwardGradients`, if some input carries a
graph node with a producing operation under the checked graph identifier, the
call raises the leaf-violation `GradientCheckError` with the gradient store
and the event trace unchanged — in particular no `forwardCalled` event is
emitted, so the forward function is never run; the result does not depend on
`func` at all. -/
theorem backwardGradients_nonleaf_skips_forward (engine : BackwardEngine) (func : FwdFunc)
    (inputs : List Arr) (gradOutputs : Option (List Arr)) (g : GraphId) (dbp : Bool)
    (s : GradStore) (tr : List Event)
    (h : ∃ a ∈ inputs, a.hasArrayNode g = true ∧ a.nodeHasNextOp g = true) :
    BackwardGradients engine func inputs gradOutputs g dbp s tr =
      (Except.error (Err.gradientCheckError leafViolationMsg), s, tr) := by
  have hc : inputs.any (fun input => input.hasArrayNode g && input.nodeHasNextOp g) = true := by
    rw [List.any_eq_true]
    obtain ⟨a, ha, h1, h2⟩ := h
    exact ⟨a, ha, by simp [h1, h2]⟩
  unfold BackwardGradients
  rw [hc]
  rfl

/-- Witness for C4: a concrete non-leaf input is rejected before the forward
function runs. -/
theorem backwardGradients_nonleaf_skips_forward_witness :
    (∃ a ∈ [nonLeafA], a.hasArrayNode 1 = true ∧ a.nodeHasNextOp 1 = true) ∧
    BackwardGradients idEngine (constFunc [outArr]) [nonLeafA] none 1 false [] [] =
      (Except.error (Err.gradientCheckError leafViolationMsg), [], []) :=
  ⟨by decide,
    backwardGradients_nonleaf_skips_forward idEngine (constFunc [outArr]) [nonLeafA] none 1
      false [] [] (by decide)⟩

/-! ### Claim C5 -/

theorem findAliasPair_aux_isSome (outputs : List Arr) (g : GraphId) :
    ∀ (l : List Arr) (i : Nat),
      (findAliasPair.aux outputs g l i).isSome = true ↔
        ∃ a ∈ l, ∃ b ∈ outputs, a.bodyId = b.bodyId ∧ a.isGradRequired g = true := by
  intro l
  induction l with
  | nil => intro i; simp [findAliasPair.aux]
  | cons inp rest ih =>
    intro i
    rw [findAliasPair.aux]
    cases hf : outputs.findIdx?
        (fun out => decide (out.bodyId = inp.bodyId ∧ inp.isGradRequired g = true)) with
    | some j =>
      simp only [hf, Option.isSome_some, true_iff]
      have hs : (outputs.findIdx?
          (fun out => decide (out.bodyId = inp.bodyId ∧ inp.isGradRequired g = true))).isSome
          = true := by rw [hf]; rfl
      rw [List.findIdx?_isSome, List.any_eq_true] at hs
      obtain ⟨b, hb, hpred⟩ := hs
      rw [decide_eq_true_eq] at hpred
      exact ⟨inp, List.mem_cons_self inp rest, b, hb, hpred.1.symm, hpred.2⟩
    | none =>
      simp only [hf]
      rw [ih]
      constructor
      · rintro ⟨a, ha, b, hb, hab, hreq⟩
        exact ⟨a, List.mem_cons_of_mem inp ha, b, hb, hab, hreq⟩
      · rintro ⟨a, ha, b, hb, hab, hreq⟩
        rcases List.mem_cons.mp ha with rfl | ha
        · exfalso
          have := List.findIdx?_eq_none_iff.mp hf b hb
          rw [decide_eq_false_iff_not] at this
          exact this ⟨hab.symm, hreq⟩
        · exact ⟨a, ha, b, hb, hab, hreq⟩

/-- **C5**: for every call to `BackwardGradients` whose inputs pass the leaf
check, if the forward function succeeds and returns an output whose array body
is identical to that of some input requiring gradient under the graph
identifier, the call raises the identical-input-output `GradientCheckError`;
the returned store is exactly the store left by the forward function (no
gradient was seeded) and the trace gains no `backwardCalled` event (the
backward engine never ran).  The auxiliary equivalence ties the internal
alias scan to the claim's phrasing. -/
theorem backwardGradients_alias_error (engine : BackwardEngine) (func : FwdFunc)
    (inputs outputs : List Arr) (gradOutputs : Option (List Arr)) (g : GraphId) (dbp : Bool)
    (s s1 : GradStore) (tr t1 : List Event) (i j : Nat)
    (hleaf : inputs.any (fun input => input.hasArrayNode g && input.nodeHasNextOp g) = false)
    (hfunc : func.run inputs s (tr ++ [Event.forwardCalled]) = (Except.ok outputs, s1, t1))
    (halias : findAliasPair inputs outputs g = some (i, j)) :
    BackwardGradients engine func inputs gradOutputs g dbp s tr =
      (Except.error (Err.gradientCheckError (identicalMsg i j)), s1, t1) ∧
    ((findAliasPair inputs outputs g).isSome = true ↔
      ∃ a ∈ inputs, ∃ b ∈ outputs, a.bodyId = b.bodyId ∧ a.isGradRequired g = true) := by
  constructor
  · unfold BackwardGradients
    rw [hleaf]
    simp only [Bool.false_eq_true, if_false, hfunc, halias]
  · exact findAliasPair_aux_isSome outputs g inputs 0

/-- Witness for C5: the identity forward function returns its own input, which
requires gradient, and the aliasing error is raised with no backward event. -/
theorem backwardGradients_alias_error_witness :
    ([leafA].any (fun input => input.hasArrayNode 1 && input.nodeHasNextOp 1) = false) ∧
    (idFunc.run [leafA] [] ([] ++ [Event.forwardCalled]) =
      ((Except.ok [leafA] : Except Err (List Arr)), ([] : GradStore), [Event.forwardCalled])) ∧
    (findAliasPair [leafA] [leafA] 1 = some (0, 0)) ∧
    (BackwardGradients idEngine idFunc [leafA] none 1 false [] [] =
      (Except.error (Err.gradientCheckError (identicalMsg 0 0)), [], [Event.forwardCalled]) ∧
    ((findAliasPair [leafA] [leafA] 1).isSome = true ↔
      ∃ a ∈ [leafA], ∃ b ∈ [leafA], a.bodyId = b.bodyId ∧ a.isGradRequired 1 = true)) :=
  ⟨by decide, rfl, by decide,
    backwardGradients_alias_error idEngine idFunc [leafA] [leafA] none 1 false [] [] []
      [Event.forwardCalled] 0 0 (by decide) rfl (by decide)⟩

/-! ### Claim C1 -/

theorem mem_failedIndicesAux (atol rtol : ℚ) :
    ∀ (pairs : List (Option Arr × Arr)) (start m : Nat),
      m ∈ failedIndicesAux pairs atol rtol start ↔
        ∃ j bg ng, pairs[j]? = some (some bg, ng) ∧ m = start + j ∧
          allClose bg ng atol rtol = false := by
  intro pairs
  induction pairs with
  | nil => intro start m; simp [failedIndicesAux]
  | cons p rest ih =>
    intro start m
    obtain ⟨o, ng⟩ := p
    cases o with
    | none =>
      have hred : failedIndicesAux ((none, ng) :: rest) atol rtol start =
          failedIndicesAux rest atol rtol (start + 1) := rfl
      rw [hred, ih]
      constructor
      · rintro ⟨j, bg, ng2, hj, hm, hac⟩
        exact ⟨j + 1, bg, ng2, by simpa using hj, by omega, hac⟩
      · rintro ⟨j, bg, ng2, hj, hm, hac⟩
        cases j with
        | zero => simp at hj
        | succ j2 => exact ⟨j2, bg, ng2, by simpa using hj, by omega, hac⟩
    | some bg0 =>
      by_cases hac0 : allClose bg0 ng atol rtol = true
      · have hred : failedIndicesAux ((some bg0, ng) :: rest) atol rtol start =
            failedIndicesAux rest atol rtol (start + 1) := by
          simp only [failedIndicesAux]
          rw [if_pos hac0]
        rw [hred, ih]
        constructor
        · rintro ⟨j, bg, ng2, hj, hm, hac⟩
          exact ⟨j + 1, bg, ng2, by simpa using hj, by omega, hac⟩
        · rintro ⟨j, bg, ng2, hj, hm, hac⟩
          cases j with
          | zero =>
            exfalso
            simp at hj
            rw [← hj.1, ← hj.2] at hac
            rw [hac0] at hac
            exact Bool.noConfusion hac
          | succ j2 => exact ⟨j2, bg, ng2, by simpa using hj, by omega, hac⟩
      · have hred : failedIndicesAux ((some bg0, ng) :: rest) atol rtol start =
            start :: failedIndicesAux rest atol rtol (start + 1) := by
          simp only [failedIndicesAux]
          rw [if_neg hac0]
        rw [hred, List.mem_cons, ih]
        constructor
        · rintro (rfl | ⟨j, bg, ng2, hj, hm, hac⟩)
          · exact ⟨0, bg0, ng, by simp, by omega, by simpa using hac0⟩
          · exact ⟨j + 1, bg, ng2, by simpa using hj, by omega, hac⟩
        · rintro ⟨j, bg, ng2, hj, hm, hac⟩
          cases j with
          | zero => left; omega
          | succ j2 => right; exact ⟨j2, bg, ng2, by simpa using hj, by omega, hac⟩

theorem mem_failedInputIndices (bgrads : List (Option Arr)) (ngrads : List Arr)
    (atol rtol : ℚ) (i : Nat) :
    i ∈ failedInputIndices bgrads ngrads atol rtol ↔
      ∃ bg ng, bgrads[i]? = some (some bg) ∧ ngrads[i]? = some ng ∧
        allClose bg ng atol rtol = false := by
  unfold failedInputIndices
  rw [mem_failedIndicesAux]
  constructor
  · rintro ⟨j, bg, ng, hj, hm, hac⟩
    rw [List.getElem?_zip_eq_some] at hj
    have hij : i = j := by omega
    subst hij
    exact ⟨bg, ng, hj.1, hj.2, hac⟩
  · rintro ⟨bg, ng, h1, h2, hac⟩
    exact ⟨i, bg, ng, List.getElem?_zip_eq_some.mpr ⟨h1, h2⟩, by omega, hac⟩

/-- **C1**: in `CheckBackwardComputation`, under the hypotheses that the
backward extraction succeeded, returned one (optional) gradient per input
passing the shape/dtype validation, and that the numerical estimator behaved
according to its contract, the call raises a check error exactly when some
input's produced analytic gradient fails the all-close comparison against the
corresponding numerical gradient; inputs whose extraction produced no analytic
gradient never contribute a failing index (they are silently skipped), and all
failing indices are collected into `failedInputIndices` and raised together in
one aggregated `GradientCheckError`. -/
theorem checkBackwardComputation_allclose (engine : BackwardEngine)
    (oracle : NumericalOracle) (func : FwdFunc) (inputs gradOutputs eps : List Arr)
    (atol rtol : ℚ) (graphId : Option GraphId) (fresh : Nat) (s : GradStore)
    (tr : List Event) (inp0 : Arr) (rest : List Arr) (bgrads : List (Option Arr))
    (ngrads : List Arr) (s1 : GradStore) (t1 : List Event)
    (hinp : inputs = inp0 :: rest)
    (hbg : BackwardGradients engine func (DisconnectInputArrays fresh inputs)
      (some gradOutputs) (getArrayGraphId inp0 graphId) false s tr = (Except.ok bgrads, s1, t1))
    (hlen : bgrads.length = inputs.length)
    (hval : findShapeDtypeError (inputs.zip bgrads) inputs.length 0 = none)
    (hor : oracle.run inputs gradOutputs eps = Except.ok ngrads)
    (hnlen : ngrads.length = inputs.length)
    (hnsh : (inputs.zip ngrads).any
      (fun p => decide (p.2.shape ≠ p.1.shape) || decide (p.2.dtype ≠ p.1.dtype)) = false) :
    (CheckBackwardComputation engine oracle func inputs gradOutputs eps atol rtol graphId
        fresh s tr =
      if (failedInputIndices bgrads ngrads atol rtol).isEmpty then
        (Except.ok (), s1, t1 ++ [Event.numericalCalled])
      else
        (Except.error (Err.gradientCheckError
          (numericalErrorMsg (failedInputIndices bgrads ngrads atol rtol) inputs.length
            (getArrayGraphId inp0 graphId) atol rtol)), s1, t1 ++ [Event.numericalCalled])) ∧
    (∀ i, i ∈ failedInputIndices bgrads ngrads atol rtol ↔
      ∃ bg ng, bgrads[i]? = some (some bg) ∧ ngrads[i]? = some ng ∧
        allClose bg ng atol rtol = false) := by
  subst hinp
  constructor
  · unfold CheckBackwardComputation
    simp only [hbg, hval, hor, hlen, hnlen, hnsh, ne_eq, not_true_eq_false, if_false,
      Bool.false_eq_true, if_true]
  · intro i
    exact mem_failedInputIndices bgrads ngrads atol rtol i

/-- Witness for C1: a concrete run in which the single input's analytic
gradient `gradV` differs from the numerical gradient `numV` beyond
`atol = rtol = 0`, so index 0 is collected and the aggregated check error is
raised. -/
theorem checkBackwardComputation_allclose_witness :
    ([leafA] = leafA :: ([] : List Arr)) ∧
    (BackwardGradients (writeEngine 50 gradV) (constFunc [outArr])
        (DisconnectInputArrays 50 [leafA]) (some [outArr]) (getArrayGraphId leafA (some 1))
        false [] [] =
      (Except.ok [some gradV], [((50, 1), gradV)],
        [Event.forwardCalled, Event.backwardCalled 1 false])) ∧
    (CheckBackwardComputation (writeEngine 50 gradV) (constOracle [numV]) (constFunc [outArr])
        [leafA] [outArr] [outArr] 0 0 (some 1) 50 [] [] =
      if (failedInputIndices [some gradV] [numV] 0 0).isEmpty then
        (Except.ok (), [((50, 1), gradV)],
          [Event.forwardCalled, Event.backwardCalled 1 false] ++ [Event.numericalCalled])
      else
        (Except.error (Err.gradientCheckError
          (numericalErrorMsg (failedInputIndices [some gradV] [numV] 0 0) [leafA].length
            (getArrayGraphId leafA (some 1)) 0 0)), [((50, 1), gradV)],
          [Event.forwardCalled, Event.backwardCalled 1 false] ++ [Event.numericalCalled])) ∧
    (∀ i, i ∈ failedInputIndices [some gradV] [numV] 0 0 ↔
      ∃ bg ng, [some gradV][i]? = some (some bg) ∧ [numV][i]? = some ng ∧
        allClose bg ng 0 0 = false) :=
  ⟨rfl, by decide,
    checkBackwardComputation_allclose (writeEngine 50 gradV) (constOracle [numV])
      (constFunc [outArr]) [leafA] [outArr] [outArr] 0 0 (some 1) 50 [] [] leafA []
      [some gradV] [numV] [((50, 1), gradV)]
      [Event.forwardCalled, Event.backwardCalled 1 false] rfl (by decide) (by decide)
      (by decide) (by decide) (by decide) (by decide)⟩

/-! ### Claim C2 -/

theorem mem_enum_getElem {α : Type} (l : List α) (i : Nat) (x : α) :
    (i, x) ∈ l.enum ↔ l[i]? = some x := by
  rw [List.enum, List.mk_mem_enumFrom_iff_le_and_getElem?_sub]
  simp

theorem dbpDisabledFailures_eq_nil_iff (grads : List (Option Arr)) (g : GraphId) :
    dbpDisabledFailures grads g = [] ↔
      ∀ (i : Nat) (a : Arr), grads[i]? = some (some a) → a.isGradRequired g = false := by
  unfold dbpDisabledFailures
  rw [List.filterMap_eq_nil_iff]
  constructor
  · intro h i a hia
    have hm : (i, some a) ∈ grads.enum := (mem_enum_getElem grads i (some a)).mpr hia
    have hz : (if a.isGradRequired g = true then some (dbpDisabledMsg i grads.length g)
        else none) = none := h (i, some a) hm
    by_cases hr : a.isGradRequired g = true
    · rw [if_pos hr] at hz
      exact absurd hz (Option.some_ne_none _)
    · simpa using hr
  · intro h p hp
    obtain ⟨i, o⟩ := p
    cases o with
    | none => rfl
    | some a =>
      have hia : grads[i]? = some (some a) := (mem_enum_getElem grads i (some a)).mp hp
      have := h i a hia
      simp [this]

theorem dbpEnabledFailures_eq_nil_iff (grads : List (Option Arr)) (g : GraphId) :
    dbpEnabledFailures grads g = [] ↔
      ∀ (i : Nat) (a : Arr), grads[i]? = some (some a) → a.isGradRequired g = true := by
  unfold dbpEnabledFailures
  rw [List.filterMap_eq_nil_iff]
  constructor
  · intro h i a hia
    have hm : (i, some a) ∈ grads.enum := (mem_enum_getElem grads i (some a)).mpr hia
    have hz : (if (!a.isGradRequired g) = true then some (dbpEnabledMsg i grads.length g)
        else none) = none := h (i, some a) hm
    by_cases hr : a.isGradRequired g = true
    · exact hr
    · rw [Bool.not_eq_true] at hr
      rw [hr] at hz
      exact absurd hz (Option.some_ne_none _)
  · intro h p hp
    obtain ⟨i, o⟩ := p
    cases o with
    | none => rfl
    | some a =>
      have hia : grads[i]? = some (some a) := (mem_enum_getElem grads i (some a)).mp hp
      have := h i a hia
      simp [this]

/-- **C2**: in `CheckDoubleBackpropOption`, under the hypotheses that the two
backward extractions of the squared wrapper (each on a freshly isolated copy of
the inputs) succeed, a single aggregated `GradientCheckError` is raised if and
only if at least one failure was recorded across the two runs; the recorded
failures are exactly: in the disabled run every produced gradient that requires
gradient under the graph identifier, and in the enabled run every produced
gradient that does not. -/
theorem checkDoubleBackpropOption_policy (engine : BackwardEngine) (square : Arr → Arr)
    (func : FwdFunc) (inputs : List Arr) (g : GraphId) (fresh1 fresh2 : Nat)
    (s : GradStore) (tr : List Event) (grads1 grads2 : List (Option Arr))
    (s1 s2 : GradStore) (t1 t2 : List Event)
    (h1 : BackwardGradients engine (nonlinearFunc square func)
      (DisconnectInputArrays fresh1 inputs) none g false s tr = (Except.ok grads1, s1, t1))
    (h2 : BackwardGradients engine (nonlinearFunc square func)
      (DisconnectInputArrays fresh2 inputs) none g true s1 t1 = (Except.ok grads2, s2, t2)) :
    (CheckDoubleBackpropOption engine square func inputs g fresh1 fresh2 s tr =
      if (dbpDisabledFailures grads1 g ++ dbpEnabledFailures grads2 g).isEmpty then
        (Except.ok (), s2, t2)
      else
        (Except.error (Err.gradientCheckError
          (String.join (dbpDisabledFailures grads1 g ++ dbpEnabledFailures grads2 g))),
          s2, t2)) ∧
    (dbpDisabledFailures grads1 g ++ dbpEnabledFailures grads2 g = [] ↔
      ((∀ (i : Nat) (a : Arr), grads1[i]? = some (some a) → a.isGradRequired g = false) ∧
       (∀ (i : Nat) (a : Arr), grads2[i]? = some (some a) → a.isGradRequired g = true))) := by
  constructor
  · unfold CheckDoubleBackpropOption
    simp only [h1, h2]
  · rw [List.append_eq_nil, dbpDisabledFailures_eq_nil_iff, dbpEnabledFailures_eq_nil_iff]

/-- Witness for C2: a concrete run in which the disabled run produces a
gradient still connected to the graph, so the aggregated error is raised. -/
theorem checkDoubleBackpropOption_policy_witness :
    (BackwardGradients (writeEngine 50 gradV) (nonlinearFunc squareArr (constFunc [outArr]))
        (DisconnectInputArrays 50 [leafA]) none 1 false [] [] =
      (Except.ok [some gradV], [((50, 1), gradV)],
        [Event.forwardCalled, Event.backwardCalled 1 false])) ∧
    (BackwardGradients (writeEngine 50 gradV) (nonlinearFunc squareArr (constFunc [outArr]))
        (DisconnectInputArrays 60 [leafA]) none 1 true [((50, 1), gradV)]
        [Event.forwardCalled, Event.backwardCalled 1 false] =
      (Except.ok [none], [((50, 1), gradV)],
        [Event.forwardCalled, Event.backwardCalled 1 false, Event.forwardCalled,
          Event.backwardCalled 1 true])) ∧
    (CheckDoubleBackpropOption (writeEngine 50 gradV) squareArr (constFunc [outArr]) [leafA] 1
        50 60 [] [] =
      if (dbpDisabledFailures [some gradV] 1 ++ dbpEnabledFailures [none] 1).isEmpty then
        (Except.ok (), [((50, 1), gradV)],
          [Event.forwardCalled, Event.backwardCalled 1 false, Event.forwardCalled,
            Event.backwardCalled 1 true])
      else
        (Except.error (Err.gradientCheckError
          (String.join (dbpDisabledFailures [some gradV] 1 ++ dbpEnabledFailures [none] 1))),
          [((50, 1), gradV)],
          [Event.forwardCalled, Event.backwardCalled 1 false, Event.forwardCalled,
            Event.backwardCalled 1 true])) ∧
    (dbpDisabledFailures [some gradV] 1 ++ dbpEnabledFailures [none] 1 = [] ↔
      ((∀ (i : Nat) (a : Arr), [some gradV][i]? = some (some a) → a.isGradRequired 1 = false) ∧
       (∀ (i : Nat) (a : Arr), ([none] : List (Option Arr))[i]? = some (some a) → a.isGradRequired 1 = true))) := by
  refine ⟨by decide, by decide, ?_⟩
  exact checkDoubleBackpropOption_policy (writeEngine 50 gradV) squareArr (constFunc [outArr])
    [leafA] 1 50 60 [] [] [some gradV] [none] [((50, 1), gradV)] [((50, 1), gradV)]
    [Event.forwardCalled, Event.backwardCalled 1 false]
    [Event.forwardCalled, Event.backwardCalled 1 false, Event.forwardCalled,
      Event.backwardCalled 1 true] (by decide) (by decide)

/-! ### Claim C3 -/

theorem mem_missingIndices (grads : List (Option Arr)) (i : Nat) :
    i ∈ missingIndices grads ↔ grads[i]? = some none := by
  unfold missingIndices
  rw [List.mem_filterMap]
  constructor
  · rintro ⟨⟨j, o⟩, hm, hf⟩
    cases o with
    | none =>
      have hj : j = i := by simpa using hf
      subst hj
      exact (mem_enum_getElem _ _ _).mp hm
    | some a => simp at hf
  · intro h
    exact ⟨(i, none), (mem_enum_getElem _ i none).mpr h, by simp⟩

theorem findNotRequiringGrad_eq_none_iff (arrs : List Arr) (g : GraphId) :
    findNotRequiringGrad arrs g = none ↔ ∀ a ∈ arrs, a.isGradRequired g = true := by
  unfold findNotRequiringGrad
  rw [List.findIdx?_eq_none_iff]
  constructor
  · intro h a ha
    have := h a ha
    simpa using this
  · intro h a ha
    simp [h a ha]

/-- **C3**: in `CheckDoubleBackwardComputationImpl`, if some input (or, the
inputs all passing, some first-order seed gradient) does not require gradient
under the effective graph identifier, an `XchainerError` is raised with store
and trace unchanged — before any forward, backward or numerical-estimation
event; and once the combined second-order extraction succeeds, a missing
gradient at any combined-vector index makes the check raise the aggregated
missing-gradient `GradientCheckError`; `missingIndices` contains every index
whose gradient is absent — no element is skipped. -/
theorem checkDoubleBackwardImpl_strict (engine : BackwardEngine) (oracle : NumericalOracle)
    (func : FwdFunc) (inputs gradOutputs gradGradInputs eps : List Arr) (atol rtol : ℚ)
    (graphId : Option GraphId) (s : GradStore) (tr : List Event) (inp0 : Arr)
    (rest : List Arr) (ngrads : List Arr) (bgrads : List (Option Arr)) (s2 : GradStore)
    (t2 : List Event) (i : Nat)
    (hinp : inputs = inp0 :: rest)
    (hggi : gradGradInputs.length = inputs.length) :
    (findNotRequiringGrad inputs (getArrayGraphId inp0 graphId) = some i →
      CheckDoubleBackwardComputationImpl engine oracle func inputs gradOutputs gradGradInputs
        eps atol rtol graphId s tr =
      (Except.error (Err.xchainerError
        (inputNotDifferentiableMsg i inputs.length (getArrayGraphId inp0 graphId))), s, tr)) ∧
    (findNotRequiringGrad inputs (getArrayGraphId inp0 graphId) = none →
      findNotRequiringGrad gradOutputs (getArrayGraphId inp0 graphId) = some i →
      CheckDoubleBackwardComputationImpl engine oracle func inputs gradOutputs gradGradInputs
        eps atol rtol graphId s tr =
      (Except.error (Err.xchainerError
        (gradOutputNotDifferentiableMsg i gradOutputs.length (getArrayGraphId inp0 graphId))),
        s, tr)) ∧
    (findNotRequiringGrad inputs (getArrayGraphId inp0 graphId) = none →
      findNotRequiringGrad gradOutputs (getArrayGraphId inp0 graphId) = none →
      oracle.run (inputs ++ gradOutputs) gradGradInputs eps = Except.ok ngrads →
      ngrads.length = inputs.length + gradOutputs.length →
      BackwardGradients engine
        (firstOrderGradFunc engine func inputs.length (getArrayGraphId inp0 graphId))
        (inputs ++ gradOutputs) (some gradGradInputs) (getArrayGraphId inp0 graphId) true s
        (tr ++ [Event.numericalCalled]) = (Except.ok bgrads, s2, t2) →
      bgrads.length = inputs.length + gradOutputs.length →
      missingIndices bgrads ≠ [] →
      CheckDoubleBackwardComputationImpl engine oracle func inputs gradOutputs gradGradInputs
        eps atol rtol graphId s tr =
      (Except.error (Err.gradientCheckError
        (secondOrderMissingMsg (missingIndices bgrads) inputs.length gradOutputs.length
          (getArrayGraphId inp0 graphId))), s2, t2)) ∧
    (∀ k, k ∈ missingIndices bgrads ↔ bgrads[k]? = some none) ∧
    (∀ (arrs : List Arr) (g : GraphId),
      findNotRequiringGrad arrs g = none ↔ ∀ a ∈ arrs, a.isGradRequired g = true) := by
  subst hinp
  refine ⟨?_, ?_, ?_, fun k => mem_missingIndices bgrads k, findNotRequiringGrad_eq_none_iff⟩
  · intro h
    unfold CheckDoubleBackwardComputationImpl
    simp only [hggi, ne_eq, not_true_eq_false, if_false, h]
  · intro hin hout
    unfold CheckDoubleBackwardComputationImpl
    simp only [hggi, ne_eq, not_true_eq_false, if_false, hin, hout]
  · intro hin hout hor hnlen hbg hblen hmiss
    have hmie : (missingIndices bgrads).isEmpty = false := List.isEmpty_eq_false.mpr hmiss
    unfold CheckDoubleBackwardComputationImpl
    simp only [hggi, ne_eq, not_true_eq_false, if_false, hin, hout, hor, hnlen, hbg, hblen,
      hmie, Bool.not_false, if_true]

/-- Witness for C3: the two precondition rejections on concrete
non-differentiable inputs, and a concrete combined run whose second
combined-vector element has no gradient, which is reported. -/
theorem checkDoubleBackwardImpl_strict_witness :
    (findNotRequiringGrad [noGradA] (getArrayGraphId noGradA (some 1)) = some 0) ∧
    (CheckDoubleBackwardComputationImpl (writeEngine 10 gradV) (constOracle [numV, numV])
        (constFunc [outArr]) [noGradA] [] [ggiArr] [ggiArr] 0 0 (some 1) [] [] =
      (Except.error (Err.xchainerError
        (inputNotDifferentiableMsg 0 [noGradA].length (getArrayGraphId noGradA (some 1)))),
        [], [])) ∧
    (CheckDoubleBackwardComputationImpl (writeEngine 10 gradV) (constOracle [numV, numV])
        (constFunc [outArr]) [leafA] [noGradB] [ggiArr] [ggiArr] 0 0 (some 1) [] [] =
      (Except.error (Err.xchainerError
        (gradOutputNotDifferentiableMsg 0 [noGradB].length (getArrayGraphId leafA (some 1)))),
        [], [])) ∧
    (missingIndices [some gradV, none] ≠ []) ∧
    (CheckDoubleBackwardComputationImpl (writeEngine 10 gradV) (constOracle [numV, numV])
        (constFunc [outArr]) [leafA] [leafB] [ggiArr] [ggiArr] 0 0 (some 1) [] [] =
      (Except.error (Err.gradientCheckError
        (secondOrderMissingMsg (missingIndices [some gradV, none]) [leafA].length
          [leafB].length (getArrayGraphId leafA (some 1)))),
        [((10, 1), gradV), ((99, 1), ggiArr)],
        [Event.numericalCalled, Event.forwardCalled, Event.forwardCalled,
          Event.backwardCalled 1 true, Event.backwardCalled 1 true])) ∧
    (1 ∈ missingIndices [some gradV, none] ↔
      ([some gradV, none] : List (Option Arr))[1]? = some none) :=
  ⟨by decide,
    (checkDoubleBackwardImpl_strict (writeEngine 10 gradV) (constOracle [numV, numV])
      (constFunc [outArr]) [noGradA] [] [ggiArr] [ggiArr] 0 0 (some 1) [] [] noGradA [] [] []
      [] [] 0 rfl (by decide)).1 (by decide),
    (checkDoubleBackwardImpl_strict (writeEngine 10 gradV) (constOracle [numV, numV])
      (constFunc [outArr]) [leafA] [noGradB] [ggiArr] [ggiArr] 0 0 (some 1) [] [] leafA [] []
      [] [] [] 0 rfl (by decide)).2.1 (by decide) (by decide),
    by decide,
    (checkDoubleBackwardImpl_strict (writeEngine 10 gradV) (constOracle [numV, numV])
      (constFunc [outArr]) [leafA] [leafB] [ggiArr] [ggiArr] 0 0 (some 1) [] [] leafA []
      [numV, numV] [some gradV, none] [((10, 1), gradV), ((99, 1), ggiArr)]
      [Event.numericalCalled, Event.forwardCalled, Event.forwardCalled,
        Event.backwardCalled 1 true, Event.backwardCalled 1 true] 0 rfl
      (by decide)).2.2.1 (by decide) (by decide) (by decide) (by decide) (by decide)
      (by decide) (by decide),
    (checkDoubleBackwardImpl_strict (writeEngine 10 gradV) (constOracle [numV, numV])
      (constFunc [outArr]) [leafA] [leafB] [ggiArr] [ggiArr] 0 0 (some 1) [] [] leafA []
      [numV, numV] [some gradV, none] [] [] 0 rfl (by decide)).2.2.2.1 1⟩

/-! ### Claim C7 -/

/-- **C7**: both public entry points run their checks inside leak detection
scopes and, after each scope closes (a `scopeOpened`/`scopeClosed` pair around
the check's events), raise a `GradientCheckError` naming the surviving
allocations if and only if the corresponding tracker reports survivors; when
nothing survives, no leak error is raised and the next phase (or success)
follows. -/
theorem leak_assertion_iff (engine : BackwardEngine) (oracle : NumericalOracle)
    (square : Arr → Arr) (func : FwdFunc) (inputs gradOutputs gradGradInputs eps : List Arr)
    (atol rtol : ℚ) (graphId : Option GraphId) (fresh1 fresh2 fresh3 fresh4 fresh5 : Nat)
    (tracker1 tracker2 tracker : LeakTracker) (s s1 s2 s4 : GradStore)
    (tr t1 t2 t4 : List Event) (inp0 : Arr) (rest : List Arr)
    (hinp : inputs = inp0 :: rest) :
    ((CheckDoubleBackpropOption engine square func inputs (getArrayGraphId inp0 graphId)
        fresh1 fresh2 s (tr ++ [Event.scopeOpened]) = (Except.ok (), s1, t1)) →
      (CheckBackwardComputation engine oracle func inputs gradOutputs eps atol rtol graphId
        fresh3 s1 ((t1 ++ [Event.scopeClosed]) ++ [Event.scopeOpened]) =
          (Except.ok (), s2, t2)) →
      CheckBackward engine oracle square func inputs gradOutputs eps atol rtol graphId fresh1
        fresh2 fresh3 tracker1 tracker2 s tr =
      if tracker1.survivors.isEmpty then
        (if tracker2.survivors.isEmpty then (Except.ok (), s2, t2 ++ [Event.scopeClosed])
         else (Except.error (Err.gradientCheckError (leakReportMsg tracker2.survivors)),
           s2, t2 ++ [Event.scopeClosed]))
      else (Except.error (Err.gradientCheckError (leakReportMsg tracker1.survivors)),
        s1, t1 ++ [Event.scopeClosed])) ∧
    ((CheckDoubleBackwardComputationImpl engine oracle func
        (DisconnectInputArrays fresh4 inputs) (DisconnectInputArrays fresh5 gradOutputs)
        gradGradInputs eps atol rtol graphId s (tr ++ [Event.scopeOpened]) =
          (Except.ok (), s4, t4)) →
      CheckDoubleBackwardComputation engine oracle func inputs gradOutputs gradGradInputs eps
        atol rtol graphId fresh4 fresh5 tracker s tr =
      if tracker.survivors.isEmpty then (Except.ok (), s4, t4 ++ [Event.scopeClosed])
      else (Except.error (Err.gradientCheckError (leakReportMsg tracker.survivors)),
        s4, t4 ++ [Event.scopeClosed])) := by
  subst hinp
  constructor
  · intro h1 h2
    unfold CheckBackward
    simp only [h1, CheckAllArrayBodiesFreed]
    cases ht1 : tracker1.survivors.isEmpty with
    | true =>
      simp only [ht1, if_true, h2]
      cases ht2 : tracker2.survivors.isEmpty with
      | true => simp [ht2]
      | false => simp [ht2]
    | false => simp [ht1]
  · intro h3
    unfold CheckDoubleBackwardComputation
    simp only [h3, CheckAllArrayBodiesFreed]
    cases ht : tracker.survivors.isEmpty with
    | true => simp [ht]
    | false => simp [ht]

set_option allowUnsafeReducibility true in
attribute [local semireducible] Rat.sub Rat.add Rat.mul in
/-- Witness for C7: a run of `CheckBackward` whose two check phases pass but
whose first tracker reports a surviving allocation, raising the leak error
naming it; and a passing `CheckDoubleBackwardComputation` run with an empty
tracker, raising nothing. -/
theorem leak_assertion_iff_witness :
    (CheckDoubleBackpropOption idEngine squareArr (constFunc [outArr]) [leafA]
        (getArrayGraphId leafA (some 1)) 50 60 [] ([] ++ [Event.scopeOpened]) =
      (Except.ok (), [],
        [Event.scopeOpened, Event.forwardCalled, Event.backwardCalled 1 false,
          Event.forwardCalled, Event.backwardCalled 1 true])) ∧
    (CheckBackward idEngine (constOracle [numMatch]) squareArr (constFunc [outArr]) [leafA]
        [outArr] [outArr] 0 0 (some 1) 50 60 70 ⟨[7]⟩ ⟨[]⟩ [] [] =
      if (LeakTracker.mk [7]).survivors.isEmpty then
        (if (LeakTracker.mk ([] : List Nat)).survivors.isEmpty then
          (Except.ok (), [],
            [Event.scopeOpened, Event.forwardCalled, Event.backwardCalled 1 false,
              Event.forwardCalled, Event.backwardCalled 1 true, Event.scopeClosed,
              Event.scopeOpened, Event.forwardCalled, Event.backwardCalled 1 false,
              Event.numericalCalled] ++ [Event.scopeClosed])
         else (Except.error (Err.gradientCheckError
            (leakReportMsg (LeakTracker.mk ([] : List Nat)).survivors)), [],
            [Event.scopeOpened, Event.forwardCalled, Event.backwardCalled 1 false,
              Event.forwardCalled, Event.backwardCalled 1 true, Event.scopeClosed,
              Event.scopeOpened, Event.forwardCalled, Event.backwardCalled 1 false,
              Event.numericalCalled] ++ [Event.scopeClosed]))
      else (Except.error (Err.gradientCheckError (leakReportMsg (LeakTracker.mk [7]).survivors)),
        [], [Event.scopeOpened, Event.forwardCalled, Event.backwardCalled 1 false,
          Event.forwardCalled, Event.backwardCalled 1 true] ++ [Event.scopeClosed])) ∧
    (CheckDoubleBackwardComputationImpl (writeEngine2 80 90 gradV)
        (constOracle [numMatch, numMatch]) (constFunc [outArr])
        (DisconnectInputArrays 80 [leafA]) (DisconnectInputArrays 90 [leafB]) [ggiArr]
        [outArr] 0 0 (some 1) [] ([] ++ [Event.scopeOpened]) =
      (Except.ok (), [((90, 1), gradV), ((80, 1), gradV), ((99, 1), ggiArr)],
        [Event.scopeOpened, Event.numericalCalled, Event.forwardCalled, Event.forwardCalled,
          Event.backwardCalled 1 true, Event.backwardCalled 1 true])) ∧
    (CheckDoubleBackwardComputation (writeEngine2 80 90 gradV)
        (constOracle [numMatch, numMatch]) (constFunc [outArr]) [leafA] [leafB] [ggiArr]
        [outArr] 0 0 (some 1) 80 90 ⟨[]⟩ [] [] =
      if (LeakTracker.mk ([] : List Nat)).survivors.isEmpty then
        (Except.ok (), [((90, 1), gradV), ((80, 1), gradV), ((99, 1), ggiArr)],
          [Event.scopeOpened, Event.numericalCalled, Event.forwardCalled, Event.forwardCalled,
            Event.backwardCalled 1 true, Event.backwardCalled 1 true] ++ [Event.scopeClosed])
      else (Except.error (Err.gradientCheckError
          (leakReportMsg (LeakTracker.mk ([] : List Nat)).survivors)),
        [((90, 1), gradV), ((80, 1), gradV), ((99, 1), ggiArr)],
        [Event.scopeOpened, Event.numericalCalled, Event.forwardCalled, Event.forwardCalled,
          Event.backwardCalled 1 true, Event.backwardCalled 1 true] ++ [Event.scopeClosed])) :=
  ⟨by decide,
    (leak_assertion_iff idEngine (constOracle [numMatch]) squareArr (constFunc [outArr])
      [leafA] [outArr] [ggiArr] [outArr] 0 0 (some 1) 50 60 70 80 90 ⟨[7]⟩ ⟨[]⟩ ⟨[]⟩
      [] [] [] [] []
      [Event.scopeOpened, Event.forwardCalled, Event.backwardCalled 1 false,
        Event.forwardCalled, Event.backwardCalled 1 true]
      [Event.scopeOpened, Event.forwardCalled, Event.backwardCalled 1 false,
        Event.forwardCalled, Event.backwardCalled 1 true, Event.scopeClosed,
        Event.scopeOpened, Event.forwardCalled, Event.backwardCalled 1 false,
        Event.numericalCalled] [] leafA [] rfl).1 (by decide) (by decide),
    by decide,
    (leak_assertion_iff (writeEngine2 80 90 gradV) (constOracle [numMatch, numMatch]) squareArr
      (constFunc [outArr]) [leafA] [leafB] [ggiArr] [outArr] 0 0 (some 1) 50 60 70 80 90
      ⟨[7]⟩ ⟨[]⟩ ⟨[]⟩ [] [] [] [((90, 1), gradV), ((80, 1), gradV), ((99, 1), ggiArr)]
      [] [] []
      [Event.scopeOpened, Event.numericalCalled, Event.forwardCalled, Event.forwardCalled,
        Event.backwardCalled 1 true, Event.backwardCalled 1 true] leafA [] rfl).2
      (by decide)⟩

/-! ### Claim C9 -/

/-- **C9**: `CheckBackward` performs the double-backprop toggle verification
first, inside its own leak detection scope (its events lie between the first
`scopeOpened`/`scopeClosed` pair) followed by its own leak assertion
(`tracker1`), and only afterwards the first-order comparison inside a second
scope with its own assertion (`tracker2`).  An error raised by the toggle
verification, or by its leak assertion, is returned as the final result with
the trace ending at the first scope's close — the first-order comparison
contributes nothing.  When the toggle phase and its leak assertion pass, the
result is determined by the first-order phase run inside the second scope. -/
theorem checkBackward_toggle_first (engine : BackwardEngine) (oracle : NumericalOracle)
    (square : Arr → Arr) (func : FwdFunc) (inputs gradOutputs eps : List Arr)
    (atol rtol : ℚ) (graphId : Option GraphId) (fresh1 fresh2 fresh3 : Nat)
    (tracker1 tracker2 : LeakTracker) (s s1 s2 : GradStore) (tr t1 t2 : List Event)
    (inp0 : Arr) (rest : List Arr) (e : Err) (r2res : Except Err Unit)
    (hinp : inputs = inp0 :: rest) :
    ((CheckDoubleBackpropOption engine square func inputs (getArrayGraphId inp0 graphId)
        fresh1 fresh2 s (tr ++ [Event.scopeOpened]) = (Except.error e, s1, t1)) →
      CheckBackward engine oracle square func inputs gradOutputs eps atol rtol graphId fresh1
        fresh2 fresh3 tracker1 tracker2 s tr =
        (Except.error e, s1, t1 ++ [Event.scopeClosed])) ∧
    ((CheckDoubleBackpropOption engine square func inputs (getArrayGraphId inp0 graphId)
        fresh1 fresh2 s (tr ++ [Event.scopeOpened]) = (Except.ok (), s1, t1)) →
      tracker1.survivors ≠ [] →
      CheckBackward engine oracle square func inputs gradOutputs eps atol rtol graphId fresh1
        fresh2 fresh3 tracker1 tracker2 s tr =
        (Except.error (Err.gradientCheckError (leakReportMsg tracker1.survivors)), s1,
          t1 ++ [Event.scopeClosed])) ∧
    ((CheckDoubleBackpropOption engine square func inputs (getArrayGraphId inp0 graphId)
        fresh1 fresh2 s (tr ++ [Event.scopeOpened]) = (Except.ok (), s1, t1)) →
      tracker1.survivors = [] →
      (CheckBackwardComputation engine oracle func inputs gradOutputs eps atol rtol graphId
        fresh3 s1 ((t1 ++ [Event.scopeClosed]) ++ [Event.scopeOpened]) = (r2res, s2, t2)) →
      CheckBackward engine oracle square func inputs gradOutputs eps atol rtol graphId fresh1
        fresh2 fresh3 tracker1 tracker2 s tr =
        match r2res with
        | Except.error e2 => (Except.error e2, s2, t2 ++ [Event.scopeClosed])
        | Except.ok _ =>
          if tracker2.survivors.isEmpty then (Except.ok (), s2, t2 ++ [Event.scopeClosed])
          else (Except.error (Err.gradientCheckError (leakReportMsg tracker2.survivors)),
            s2, t2 ++ [Event.scopeClosed])) := by
  subst hinp
  refine ⟨?_, ?_, ?_⟩
  · intro h1
    unfold CheckBackward
    simp only [h1]
  · intro h1 ht1
    have ht1e : tracker1.survivors.isEmpty = false := List.isEmpty_eq_false.mpr ht1
    unfold CheckBackward
    simp only [h1, CheckAllArrayBodiesFreed, ht1e, Bool.false_eq_true, if_false]
  · intro h1 ht1 h2
    have ht1e : tracker1.survivors.isEmpty = true := by simp [ht1]
    unfold CheckBackward
    simp only [h1, CheckAllArrayBodiesFreed, ht1e, if_true, h2]
    cases r2res with
    | error e2 => rfl
    | ok u =>
      cases ht2 : tracker2.survivors.isEmpty with
      | true => simp [ht2]
      | false => simp [ht2]

set_option allowUnsafeReducibility true in
attribute [local semireducible] Rat.sub Rat.add Rat.mul in
/-- Witness for C9: a toggle-phase failure propagates unchanged with the trace
ending at the first scope's close; a toggle-phase pass with a leaking first
tracker raises the leak report; and after a clean toggle phase the first-order
phase's error becomes the final result. -/
theorem checkBackward_toggle_first_witness :
    (CheckDoubleBackpropOption (writeEngine 50 gradV) squareArr (constFunc [outArr]) [leafA]
        (getArrayGraphId leafA (some 1)) 50 60 [] ([] ++ [Event.scopeOpened]) =
      (Except.error (Err.gradientCheckError
        "Gradient 0 / 1 is connected to the graph 1 even when double-backprop is disabled."),
        [((50, 1), gradV)],
        [Event.scopeOpened, Event.forwardCalled, Event.backwardCalled 1 false,
          Event.forwardCalled, Event.backwardCalled 1 true])) ∧
    (CheckBackward (writeEngine 50 gradV) (constOracle [numV]) squareArr (constFunc [outArr])
        [leafA] [outArr] [outArr] 0 0 (some 1) 50 60 70 ⟨[]⟩ ⟨[]⟩ [] [] =
      (Except.error (Err.gradientCheckError
        "Gradient 0 / 1 is connected to the graph 1 even when double-backprop is disabled."),
        [((50, 1), gradV)],
        [Event.scopeOpened, Event.forwardCalled, Event.backwardCalled 1 false,
          Event.forwardCalled, Event.backwardCalled 1 true] ++ [Event.scopeClosed])) ∧
    (CheckBackward (writeEngine 70 gradV) (constOracle [numV]) squareArr (constFunc [outArr])
        [leafA] [outArr] [outArr] 0 0 (some 1) 50 60 70 ⟨[7]⟩ ⟨[]⟩ [] [] =
      (Except.error (Err.gradientCheckError (leakReportMsg (LeakTracker.mk [7]).survivors)),
        [((70, 1), gradV)],
        [Event.scopeOpened, Event.forwardCalled, Event.backwardCalled 1 false,
          Event.forwardCalled, Event.backwardCalled 1 true] ++ [Event.scopeClosed])) ∧
    (CheckBackward (writeEngine 70 gradV) (constOracle [numV]) squareArr (constFunc [outArr])
        [leafA] [outArr] [outArr] 0 0 (some 1) 50 60 70 ⟨[]⟩ ⟨[]⟩ [] [] =
      match (Except.error (Err.gradientCheckError
          "Numerical error in backward on inputs (out of 1): 0 Graph: 1 Atol: 0 Rtol: 0") :
            Except Err Unit) with
      | Except.error e2 =>
        (Except.error e2, [((70, 1), gradV)],
          [Event.scopeOpened, Event.forwardCalled, Event.backwardCalled 1 false,
            Event.forwardCalled, Event.backwardCalled 1 true, Event.scopeClosed,
            Event.scopeOpened, Event.forwardCalled, Event.backwardCalled 1 false,
            Event.numericalCalled] ++ [Event.scopeClosed])
      | Except.ok _ =>
        if (LeakTracker.mk ([] : List Nat)).survivors.isEmpty then
          (Except.ok (), [((70, 1), gradV)],
            [Event.scopeOpened, Event.forwardCalled, Event.backwardCalled 1 false,
              Event.forwardCalled, Event.backwardCalled 1 true, Event.scopeClosed,
              Event.scopeOpened, Event.forwardCalled, Event.backwardCalled 1 false,
              Event.numericalCalled] ++ [Event.scopeClosed])
        else (Except.error (Err.gradientCheckError
            (leakReportMsg (LeakTracker.mk ([] : List Nat)).survivors)),
          [((70, 1), gradV)],
          [Event.scopeOpened, Event.forwardCalled, Event.backwardCalled 1 false,
            Event.forwardCalled, Event.backwardCalled 1 true, Event.scopeClosed,
            Event.scopeOpened, Event.forwardCalled, Event.backwardCalled 1 false,
            Event.numericalCalled] ++ [Event.scopeClosed])) :=
  ⟨by decide,
    (checkBackward_toggle_first (writeEngine 50 gradV) (constOracle [numV]) squareArr
      (constFunc [outArr]) [leafA] [outArr] [outArr] 0 0 (some 1) 50 60 70 ⟨[]⟩ ⟨[]⟩
      [] [((50, 1), gradV)] []
      [] [Event.scopeOpened, Event.forwardCalled, Event.backwardCalled 1 false,
        Event.forwardCalled, Event.backwardCalled 1 true] []
      leafA []
      (Err.gradientCheckError
        "Gradient 0 / 1 is connected to the graph 1 even when double-backprop is disabled.")
      (Except.ok ()) rfl).1 (by decide),
    (checkBackward_toggle_first (writeEngine 70 gradV) (constOracle [numV]) squareArr
      (constFunc [outArr]) [leafA] [outArr] [outArr] 0 0 (some 1) 50 60 70 ⟨[7]⟩ ⟨[]⟩
      [] [((70, 1), gradV)] []
      [] [Event.scopeOpened, Event.forwardCalled, Event.backwardCalled 1 false,
        Event.forwardCalled, Event.backwardCalled 1 true] []
      leafA [] (Err.fatal "unused") (Except.ok ()) rfl).2.1 (by decide) (by decide),
    (checkBackward_toggle_first (writeEngine 70 gradV) (constOracle [numV]) squareArr
      (constFunc [outArr]) [leafA] [outArr] [outArr] 0 0 (some 1) 50 60 70 ⟨[]⟩ ⟨[]⟩
      [] [((70, 1), gradV)] [((70, 1), gradV)]
      [] [Event.scopeOpened, Event.forwardCalled, Event.backwardCalled 1 false,
        Event.forwardCalled, Event.backwardCalled 1 true]
      [Event.scopeOpened, Event.forwardCalled, Event.backwardCalled 1 false,
        Event.forwardCalled, Event.backwardCalled 1 true, Event.scopeClosed,
        Event.scopeOpened, Event.forwardCalled, Event.backwardCalled 1 false,
        Event.numericalCalled]
      leafA [] (Err.fatal "unused")
      (Except.error (Err.gradientCheckError
        "Numerical error in backward on inputs (out of 1): 0 Graph: 1 Atol: 0 Rtol: 0")) rfl).2.2
      (by decide) (by decide) (by decide)⟩

/-! ### Claim C10 -/


theorem backwardGradients_no_fatal (engine : BackwardEngine) (func : FwdFunc) (inputs : List Arr)
    (go : Option (List Arr)) (g : GraphId) (dbp : Bool) (s : GradStore) (tr : List Event)
    (m : String)
    (hfunc : ∀ xs st t, (func.run xs st t).1 ≠ Except.error (Err.fatal m)) :
    (BackwardGradients engine func inputs go g dbp s tr).1 ≠ Except.error (Err.fatal m) := by
  unfold BackwardGradients
  split
  · simp
  · split
    case _ e s1 t1 heq =>
      intro hcontra
      simp only [] at hcontra
      injection hcontra with he
      apply hfunc inputs s (tr ++ [Event.forwardCalled])
      rw [heq, he]
    case _ outputs s1 t1 heq =>
      split
      · simp
      · split
        case _ e s2 t2 heq2 =>
          unfold BackwardGradients.seedCheck at heq2
          split at heq2
          · simp at heq2
          · split at heq2
            · simp only [Prod.mk.injEq] at heq2
              obtain ⟨he, _, _⟩ := heq2
              injection he with he2
              rw [← he2]
              simp
            · simp at heq2
        case _ u s2 t2 heq2 =>
          simp

theorem nonlinearFunc_no_fatal (square : Arr → Arr) (func : FwdFunc) (m : String)
    (hfunc : ∀ xs st t, (func.run xs st t).1 ≠ Except.error (Err.fatal m)) :
    ∀ xs st t, ((nonlinearFunc square func).run xs st t).1 ≠ Except.error (Err.fatal m) := by
  intro xs st t
  unfold nonlinearFunc
  simp only []
  split
  case _ e st1 t1 heq =>
    intro hc
    simp only [] at hc
    injection hc with he
    apply hfunc xs st t
    rw [heq, he]
  case _ => simp

theorem firstOrderGradFunc_no_fatal (engine : BackwardEngine) (func : FwdFunc) (nin : Nat) (g : GraphId)
    (m : String)
    (hfunc : ∀ xs st t, (func.run xs st t).1 ≠ Except.error (Err.fatal m)) :
    ∀ xs st t, ((firstOrderGradFunc engine func nin g).run xs st t).1 ≠
      Except.error (Err.fatal m) := by
  intro xs st t
  unfold firstOrderGradFunc
  simp only []
  split
  case _ e st1 t1 heq =>
    intro hc
    simp only [] at hc
    injection hc with he
    apply backwardGradients_no_fatal engine func _ _ g true st t m hfunc
    rw [heq, he]
  case _ optGrads st1 t1 heq =>
    split
    · simp
    · split
      · simp
      · split
        · simp
        · simp

theorem checkDoubleBackpropOption_no_fatal (engine : BackwardEngine) (square : Arr → Arr) (func : FwdFunc)
    (inputs : List Arr) (g : GraphId) (f1 f2 : Nat) (s : GradStore) (tr : List Event)
    (m : String)
    (hfunc : ∀ xs st t, (func.run xs st t).1 ≠ Except.error (Err.fatal m)) :
    (CheckDoubleBackpropOption engine square func inputs g f1 f2 s tr).1 ≠
      Except.error (Err.fatal m) := by
  unfold CheckDoubleBackpropOption
  dsimp only
  split
  case _ e s1 t1 heq =>
    intro hc
    simp only [] at hc
    injection hc with he
    apply backwardGradients_no_fatal engine (nonlinearFunc square func) (DisconnectInputArrays f1 inputs)
      none g false s tr m (nonlinearFunc_no_fatal square func m hfunc)
    rw [heq, he]
  case _ grads1 s1 t1 heq =>
    split
    case _ e s2 t2 heq2 =>
      intro hc
      simp only [] at hc
      injection hc with he
      apply backwardGradients_no_fatal engine (nonlinearFunc square func) (DisconnectInputArrays f2 inputs)
        none g true s1 t1 m (nonlinearFunc_no_fatal square func m hfunc)
      rw [heq2, he]
    case _ grads2 s2 t2 heq2 =>
      split
      · simp
      · simp

theorem findShapeDtypeError_isGce :
    ∀ (pairs : List (Arr × Option Arr)) (nin i : Nat) (e : Err),
      findShapeDtypeError pairs nin i = some e → ∃ msg, e = Err.gradientCheckError msg := by
  intro pairs
  induction pairs with
  | nil => intro nin i e h; simp [findShapeDtypeError] at h
  | cons p rest ih =>
    intro nin i e h
    obtain ⟨inp, o⟩ := p
    cases o with
    | none => exact ih nin (i + 1) e h
    | some bg =>
      unfold findShapeDtypeError at h
      split at h
      · injection h with h2
        exact ⟨_, h2.symm⟩
      · split at h
        · injection h with h2
          exact ⟨_, h2.symm⟩
        · exact ih nin (i + 1) e h

theorem checkBackwardComputation_no_fatal (engine : BackwardEngine) (oracle : NumericalOracle) (func : FwdFunc)
    (inputs gradOutputs eps : List Arr) (atol rtol : ℚ) (graphId : Option GraphId)
    (fresh : Nat) (s : GradStore) (tr : List Event) (m : String)
    (hne : inputs ≠ [])
    (hm1 : m ≠ numericalSizeAssertMsg) (hm2 : m ≠ numericalShapeAssertMsg)
    (hfunc : ∀ xs st t, (func.run xs st t).1 ≠ Except.error (Err.fatal m))
    (horacle : ∀ a b c, oracle.run a b c ≠ Except.error (Err.fatal m)) :
    (CheckBackwardComputation engine oracle func inputs gradOutputs eps atol rtol graphId
      fresh s tr).1 ≠ Except.error (Err.fatal m) := by
  cases inputs with
  | nil => exact absurd rfl hne
  | cons inp0 rest =>
    unfold CheckBackwardComputation
    dsimp only
    split
    case _ e s1 t1 heq =>
      intro hc
      simp only [] at hc
      injection hc with he
      apply backwardGradients_no_fatal engine func (DisconnectInputArrays fresh (inp0 :: rest))
        (some gradOutputs) (getArrayGraphId inp0 graphId) false s tr m hfunc
      rw [heq, he]
    case _ backwardGrads s1 t1 heq =>
      split
      · simp
      · split
        case _ e heq2 =>
          intro hc
          simp only [] at hc
          injection hc with he
          obtain ⟨msg, hmsg⟩ := findShapeDtypeError_isGce _ _ _ _ heq2
          rw [hmsg] at he
          exact Err.noConfusion he
        case _ heq2 =>
          split
          case _ e heq3 =>
            intro hc
            simp only [] at hc
            injection hc with he
            apply horacle (inp0 :: rest) gradOutputs eps
            rw [heq3, he]
          case _ numericalGrads heq3 =>
            split
            · intro hc
              simp only [] at hc
              injection hc with he
              injection he with he2
              exact hm1 he2.symm
            · split
              · intro hc
                simp only [] at hc
                injection hc with he
                injection he with he2
                exact hm2 he2.symm
              · split
                · simp
                · simp

theorem checkDoubleBackwardImpl_no_fatal (engine : BackwardEngine) (oracle : NumericalOracle) (func : FwdFunc)
    (inputs gradOutputs gradGradInputs eps : List Arr) (atol rtol : ℚ)
    (graphId : Option GraphId) (s : GradStore) (tr : List Event) (m : String)
    (hne : inputs ≠ [])
    (hm1 : m ≠ numericalSizeAssertMsg) (hm2 : m ≠ backwardSizeAssertMsg)
    (hfunc : ∀ xs st t, (func.run xs st t).1 ≠ Except.error (Err.fatal m))
    (horacle : ∀ a b c, oracle.run a b c ≠ Except.error (Err.fatal m)) :
    (CheckDoubleBackwardComputationImpl engine oracle func inputs gradOutputs gradGradInputs
      eps atol rtol graphId s tr).1 ≠ Except.error (Err.fatal m) := by
  cases inputs with
  | nil => exact absurd rfl hne
  | cons inp0 rest =>
    unfold CheckDoubleBackwardComputationImpl
    dsimp only
    split
    · simp
    · split
      · simp
      · split
        · simp
        · split
          case _ e heq =>
            intro hc
            simp only [] at hc
            injection hc with he
            apply horacle ((inp0 :: rest) ++ gradOutputs) gradGradInputs eps
            rw [heq, he]
          case _ numericalGrads heq =>
            split
            · intro hc
              simp only [] at hc
              injection hc with he
              injection he with he2
              exact hm1 he2.symm
            · split
              case _ e s2 t2 heq2 =>
                intro hc
                simp only [] at hc
                injection hc with he
                apply backwardGradients_no_fatal engine
                  (firstOrderGradFunc engine func (inp0 :: rest).length
                    (getArrayGraphId inp0 graphId))
                  ((inp0 :: rest) ++ gradOutputs) (some gradGradInputs)
                  (getArrayGraphId inp0 graphId) true s (tr ++ [Event.numericalCalled]) m
                  (firstOrderGradFunc_no_fatal engine func (inp0 :: rest).length
                    (getArrayGraphId inp0 graphId) m hfunc)
                rw [heq2, he]
              case _ backwardGrads s2 t2 heq2 =>
                split
                · intro hc
                  simp only [] at hc
                  injection hc with he
                  injection he with he2
                  exact hm2 he2.symm
                · split
                  · simp
                  · split
                    · simp
                    · simp

/-- **C10**: both public entry points require a non-empty input list.  With an
empty list `CheckBackward` fails its `assert(!inputs.empty())` and
`CheckDoubleBackwardComputation` reaches `inputs.front()` of an empty sequence
(modelled as fatal errors), before any collaborator is invoked; when the
optional graph identifier is absent the effective identifier is derived from
the (first) input's first graph attachment; and with at least one input —
given that the collaborators never raise these specific fatal errors
themselves — neither entry point can produce either emptiness fault. -/
theorem entry_points_nonempty_precondition (engine : BackwardEngine) (oracle : NumericalOracle) (square : Arr → Arr)
    (func : FwdFunc) (inputs gradOutputs gradGradInputs eps : List Arr) (atol rtol : ℚ)
    (graphId : Option GraphId) (f1 f2 f3 f4 f5 : Nat) (tracker1 tracker2 tracker : LeakTracker)
    (s : GradStore) (tr : List Event) :
    (CheckBackward engine oracle square func [] gradOutputs eps atol rtol graphId f1 f2 f3
        tracker1 tracker2 s tr = (Except.error (Err.fatal assertInputsNonEmptyMsg), s, tr)) ∧
    (CheckDoubleBackwardComputation engine oracle func [] gradOutputs gradGradInputs eps atol
        rtol graphId f4 f5 tracker s tr =
      (Except.error (Err.fatal frontEmptyMsg), s,
        (tr ++ [Event.scopeOpened]) ++ [Event.scopeClosed])) ∧
    (∀ (a : Arr) (gid : GraphId), getArrayGraphId a (some gid) = gid) ∧
    (∀ (a : Arr) (n : ArrayNode) (ns : List ArrayNode), a.nodes = n :: ns →
      getArrayGraphId a none = n.graphId) ∧
    (inputs ≠ [] →
      (∀ xs st t, (func.run xs st t).1 ≠ Except.error (Err.fatal assertInputsNonEmptyMsg)) →
      (∀ a b c, oracle.run a b c ≠ Except.error (Err.fatal assertInputsNonEmptyMsg)) →
      (CheckBackward engine oracle square func inputs gradOutputs eps atol rtol graphId f1 f2
        f3 tracker1 tracker2 s tr).1 ≠ Except.error (Err.fatal assertInputsNonEmptyMsg)) ∧
    (inputs ≠ [] →
      (∀ xs st t, (func.run xs st t).1 ≠ Except.error (Err.fatal frontEmptyMsg)) →
      (∀ a b c, oracle.run a b c ≠ Except.error (Err.fatal frontEmptyMsg)) →
      (CheckDoubleBackwardComputation engine oracle func inputs gradOutputs gradGradInputs eps
        atol rtol graphId f4 f5 tracker s tr).1 ≠ Except.error (Err.fatal frontEmptyMsg)) := by
  refine ⟨rfl, rfl, fun a gid => rfl, ?_, ?_, ?_⟩
  · intro a n ns h
    unfold getArrayGraphId
    rw [h]
  · intro hne hfunc horacle
    cases inputs with
    | nil => exact absurd rfl hne
    | cons inp0 rest =>
      unfold CheckBackward
      dsimp only
      split
      case _ e heq =>
        intro hc
        simp only [] at hc
        injection hc with he
        apply checkDoubleBackpropOption_no_fatal engine square func (inp0 :: rest) (getArrayGraphId inp0 graphId)
          f1 f2 s (tr ++ [Event.scopeOpened]) assertInputsNonEmptyMsg hfunc
        rw [heq, he]
      case _ u heq =>
        unfold CheckAllArrayBodiesFreed
        cases ht1 : tracker1.survivors.isEmpty with
        | false => simp [ht1]
        | true =>
          simp only [ht1, if_true]
          split
          case _ e heq2 =>
            intro hc
            simp only [] at hc
            injection hc with he
            apply checkBackwardComputation_no_fatal engine oracle func (inp0 :: rest) gradOutputs eps atol rtol
              graphId f3 _ _ assertInputsNonEmptyMsg (by simp) (by decide) (by decide)
              hfunc horacle
            rw [heq2, he]
          case _ u2 heq2 =>
            cases ht2 : tracker2.survivors.isEmpty with
            | false => simp [ht2]
            | true => simp [ht2]
  · intro hne hfunc horacle
    cases inputs with
    | nil => exact absurd rfl hne
    | cons inp0 rest =>
      unfold CheckDoubleBackwardComputation
      dsimp only
      split
      case _ e heq =>
        intro hc
        simp only [] at hc
        injection hc with he
        apply checkDoubleBackwardImpl_no_fatal engine oracle func (DisconnectInputArrays f4 (inp0 :: rest))
          (DisconnectInputArrays f5 gradOutputs) gradGradInputs eps atol rtol graphId s
          (tr ++ [Event.scopeOpened]) frontEmptyMsg (by simp [DisconnectInputArrays])
          (by decide) (by decide) hfunc horacle
        rw [heq, he]
      case _ u heq =>
        unfold CheckAllArrayBodiesFreed
        cases ht : tracker.survivors.isEmpty with
        | false => simp [ht]
        | true => simp [ht]
/-- Witness for C10: the two entry points at an empty input list produce the
two emptiness faults; the effective graph identifier comes from the argument
when present and from the first input's node otherwise; and a concrete
non-empty run produces neither fault. -/
theorem entry_points_nonempty_precondition_witness :
    (CheckBackward idEngine (constOracle [numV]) squareArr (constFunc [outArr]) [] [outArr]
        [outArr] 0 0 (some 1) 50 60 70 ⟨[]⟩ ⟨[]⟩ [] [] =
      (Except.error (Err.fatal assertInputsNonEmptyMsg), [], [])) ∧
    (CheckDoubleBackwardComputation idEngine (constOracle [numV]) (constFunc [outArr]) []
        [outArr] [ggiArr] [outArr] 0 0 (some 1) 80 90 ⟨[]⟩ [] [] =
      (Except.error (Err.fatal frontEmptyMsg), [],
        (([] : List Event) ++ [Event.scopeOpened]) ++ [Event.scopeClosed])) ∧
    (getArrayGraphId leafA (some 5) = 5) ∧
    (leafA.nodes = ⟨1, false⟩ :: [] ∧ getArrayGraphId leafA none = 1) ∧
    ((CheckBackward idEngine (constOracle [numV]) squareArr (constFunc [outArr]) [leafA]
        [outArr] [outArr] 0 0 (some 1) 50 60 70 ⟨[]⟩ ⟨[]⟩ [] []).1 ≠
      Except.error (Err.fatal assertInputsNonEmptyMsg)) ∧
    ((CheckDoubleBackwardComputation idEngine (constOracle [numV]) (constFunc [outArr]) [leafA]
        [outArr] [ggiArr] [outArr] 0 0 (some 1) 80 90 ⟨[]⟩ [] []).1 ≠
      Except.error (Err.fatal frontEmptyMsg)) := by
  have T := entry_points_nonempty_precondition idEngine (constOracle [numV]) squareArr
    (constFunc [outArr]) [leafA] [outArr] [ggiArr] [outArr] 0 0 (some 1) 50 60 70 80 90
    ⟨[]⟩ ⟨[]⟩ ⟨[]⟩ [] []
  exact ⟨T.1, T.2.1, T.2.2.1 leafA 5, ⟨rfl, T.2.2.2.1 leafA ⟨1, false⟩ [] rfl⟩,
    T.2.2.2.2.1 (by simp) (by intro xs st t; simp [constFunc])
      (by intro a b c; simp [constOracle]),
    T.2.2.2.2.2 (by simp) (by intro xs st t; simp [constFunc])
      (by intro a b c; simp [constOracle])⟩

/-! ### Claim C8 -/

set_option allowUnsafeReducibility true in
attribute [local semireducible] Rat.sub Rat.add Rat.mul in
/-- Counterexample for C8: at a concrete non-leaf input, the precondition
violation of backward extraction is raised as `GradientCheckError` — the very
same error class carried by a concrete tolerance check failure — so the raised
error's kind alone cannot tell a precondition violation from a check failure,
refuting the claim as stated. -/
theorem precondition_error_class_counterexample :
    (BackwardGradients idEngine (constFunc [outArr]) [nonLeafA] none 1 false [] []).1 =
      Except.error (Err.gradientCheckError leafViolationMsg) ∧
    (CheckBackwardComputation (writeEngine 50 gradV) (constOracle [numV]) (constFunc [outArr])
        [leafA] [outArr] [outArr] 0 0 (some 1) 50 [] []).1 =
      Except.error (Err.gradientCheckError
        "Numerical error in backward on inputs (out of 1): 0 Graph: 1 Atol: 0 Rtol: 0") ∧
    Err.errClass (Err.gradientCheckError leafViolationMsg) =
      Err.errClass (Err.gradientCheckError
        "Numerical error in backward on inputs (out of 1): 0 Graph: 1 Atol: 0 Rtol: 0") := by
  refine ⟨by decide, by decide, rfl⟩

/-- **C8 (amended)**: only the second-order check's setup preconditions are
raised as a distinct error class: `CheckDoubleBackwardComputationImpl` raises
`XchainerError` (class 1) for the grad-grad-input count mismatch, while the
extraction preconditions such as the non-leaf violation are raised as
`GradientCheckError` (class 0) — the same class as every check failure. -/
theorem precondition_error_classes (engine : BackwardEngine) (func : FwdFunc)
    (inputs : List Arr) (gradOutputs : Option (List Arr)) (g : GraphId) (dbp : Bool)
    (s : GradStore) (tr : List Event) (oracle : NumericalOracle)
    (inputs2 gradOutputs2 gradGradInputs eps : List Arr) (atol rtol : ℚ)
    (graphId : Option GraphId) (s2 : GradStore) (tr2 : List Event)
    (inp0 : Arr) (rest : List Arr)
    (hinp : inputs2 = inp0 :: rest)
    (hnl : ∃ a ∈ inputs, a.hasArrayNode g = true ∧ a.nodeHasNextOp g = true)
    (hggc : gradGradInputs.length ≠ inputs2.length) :
    ((BackwardGradients engine func inputs gradOutputs g dbp s tr).1 =
      Except.error (Err.gradientCheckError leafViolationMsg) ∧
     Err.errClass (Err.gradientCheckError leafViolationMsg) = 0) ∧
    ((CheckDoubleBackwardComputationImpl engine oracle func inputs2 gradOutputs2
        gradGradInputs eps atol rtol graphId s2 tr2).1 =
      Except.error (Err.xchainerError gradGradCountMsg) ∧
     Err.errClass (Err.xchainerError gradGradCountMsg) = 1) ∧
    (∀ msg, Err.errClass (Err.gradientCheckError msg) = 0) := by
  subst hinp
  refine ⟨⟨?_, rfl⟩, ⟨?_, rfl⟩, fun msg => rfl⟩
  · have hc : inputs.any (fun input => input.hasArrayNode g && input.nodeHasNextOp g) = true := by
      rw [List.any_eq_true]
      obtain ⟨a, ha, h1, h2⟩ := hnl
      exact ⟨a, ha, by simp [h1, h2]⟩
    unfold BackwardGradients
    rw [hc]
    rfl
  · unfold CheckDoubleBackwardComputationImpl
    dsimp only
    rw [if_pos hggc]

/-- Witness for the amended C8: concrete runs showing the two actual classes. -/
theorem precondition_error_classes_witness :
    (∃ a ∈ [nonLeafA], a.hasArrayNode 1 = true ∧ a.nodeHasNextOp 1 = true) ∧
    (([] : List Arr).length ≠ [leafA].length) ∧
    (((BackwardGradients idEngine (constFunc [outArr]) [nonLeafA] none 1 false [] []).1 =
      Except.error (Err.gradientCheckError leafViolationMsg) ∧
     Err.errClass (Err.gradientCheckError leafViolationMsg) = 0) ∧
    ((CheckDoubleBackwardComputationImpl idEngine (constOracle [numV]) (constFunc [outArr])
        [leafA] [] [] [] 0 0 (some 1) [] []).1 =
      Except.error (Err.xchainerError gradGradCountMsg) ∧
     Err.errClass (Err.xchainerError gradGradCountMsg) = 1) ∧
    (∀ msg, Err.errClass (Err.gradientCheckError msg) = 0)) :=
  ⟨by decide, by decide,
    precondition_error_classes idEngine (constFunc [outArr]) [nonLeafA] none 1 false [] []
      (constOracle [numV]) [leafA] [] [] [] 0 0 (some 1) [] [] leafA [] rfl (by decide)
      (by decide)⟩

end XChainer
